import Mathlib

/-!
Verification of the redsea RDS block synchronizer (src/src/block_sync.cc).

The definitions below are a shallow embedding of the C++ source:
machine integers become Nat (unsigned) or Int (signed int), the two
std::map instances become association lists whose insert keeps the first
binding for a key (the semantics of std::map::insert), and the stateful
BlockStream class becomes a structure with explicit state passing.
-/

namespace Redsea

def kBitmask26 : Nat := 0x3FFFFFF

/-- Offset enumeration from block_sync.h (values 0..5 in declaration order,
as used by the array indexing in BlockNumberForOffset). -/
inductive Offset
  | A
  | B
  | C
  | Cprime
  | D
  | invalid
deriving DecidableEq, Repr

/-- Translation of BlockNumberForOffset (block_sync.cc lines 26-31).
The eBlockNumber enumerators BLOCK1..BLOCK4 are consecutive values 0..3
(default C++ enum numbering in block_sync.h); we use their numeric values.
The C++ array has 5 entries, so Offset::invalid would index out of bounds;
that call never happens on reachable states (see the C10 theorem), and we
map it to 0 here. -/
def blockNumberForOffset : Offset → Nat
  | .A => 0
  | .B => 1
  | .C => 2
  | .Cprime => 2
  | .D => 3
  | .invalid => 0

/-- Translation of MatrixMultiply (block_sync.cc lines 35-43): xor of the
rows matrix[size-1-k] for which bit k of vec is set. -/
def matrixMultiply (vec : Nat) (matrix : List Nat) : Nat :=
  (List.range matrix.length).foldl
    (fun result k =>
      if (vec >>> k) &&& 0x01 ≠ 0 then result ^^^ matrix.getD (matrix.length - 1 - k) 0
      else result)
    0

/-- Parity-check matrix constant from CalculateSyndrome (lines 48-53). -/
def parity_check_matrix : List Nat :=
  [0x200, 0x100, 0x080, 0x040, 0x020, 0x010, 0x008, 0x004,
   0x002, 0x001, 0x2dc, 0x16e, 0x0b7, 0x287, 0x39f, 0x313,
   0x355, 0x376, 0x1bb, 0x201, 0x3dc,
   0x1ee, 0x0f7, 0x2a7, 0x38f, 0x31b]

/-- Translation of CalculateSyndrome (block_sync.cc lines 47-56). -/
def calculateSyndrome (vec : Nat) : Nat :=
  matrixMultiply vec parity_check_matrix

/-- Translation of NextOffsetFor (block_sync.cc lines 58-65). -/
def nextOffsetFor : Offset → Offset
  | .A => .B
  | .B => .C
  | .C => .D
  | .Cprime => .D
  | .D => .A
  | .invalid => .A

/-- Association list standing for std::map with key (syndrome, offset) and
value an error vector. Lookups are by exact key, so only presence and the
kept binding matter, not the ordering of entries. -/
abbrev ErrorTable := List ((Nat × Offset) × Nat)

/-- Insert with the semantics of std::map::insert: if the key is already
bound the map is unchanged (the first binding for a key wins). -/
def tableInsert (t : ErrorTable) (key : Nat × Offset) (value : Nat) : ErrorTable :=
  if (t.find? (fun e => decide (e.1 = key))).isSome then t else t ++ [(key, value)]

/-- Exact-key lookup in the association list (std::map count/at). -/
def tableLookup (t : ErrorTable) (key : Nat × Offset) : Option Nat :=
  (t.find? (fun e => decide (e.1 = key))).map (fun e => e.2)

/-- Offset-word constants from MakeErrorLookupTable (lines 72-78), listed in
the iteration order of the std::map (the Offset enum order). -/
def offset_words : List (Offset × Nat) :=
  [(.A, 0x0FC), (.B, 0x198), (.C, 0x168), (.Cprime, 0x350), (.D, 0x1B4)]

/-- Translation of MakeErrorLookupTable (block_sync.cc lines 69-96): for
each offset, for error classes 0x1 then 0x3, for shifts 0..25, insert
(syndrome of error_vector xor offset word, offset) -> error_vector. -/
def makeErrorLookupTable : ErrorTable :=
  offset_words.foldl
    (fun table offset =>
      [0x1, 0x3].foldl
        (fun table error_bits =>
          (List.range 26).foldl
            (fun table shift =>
              let error_vector := (error_bits <<< shift) &&& kBitmask26
              let syndrome := calculateSyndrome (error_vector ^^^ offset.2)
              tableInsert table (syndrome, offset.1) error_vector)
            table)
        table)
    []

/-- Translation of OffsetForSyndrome (block_sync.cc lines 98-110). -/
def offsetForSyndrome (syndrome : Nat) : Offset :=
  if syndrome = 0x3D8 then .A
  else if syndrome = 0x3D4 then .B
  else if syndrome = 0x25C then .C
  else if syndrome = 0x3CC then .Cprime
  else if syndrome = 0x258 then .D
  else .invalid

/-- The process-wide error lookup table (block_sync.cc lines 112-113). -/
def kErrorLookup : ErrorTable := makeErrorLookupTable

/-- Translation of CorrectBurstErrors (block_sync.cc lines 116-126). -/
def correctBurstErrors (block : Nat) (offset : Offset) : Nat :=
  let syndrome := calculateSyndrome block
  match tableLookup kErrorLookup (syndrome, offset) with
  | some err => block ^^^ err
  | none => block

/-- Translation of the RunningSum circular buffer (lines 128-148). -/
structure RunningSum where
  history : List Int
  pointer : Nat
deriving DecidableEq, Repr

/-- RunningSum constructor: length zero-initialized slots, pointer 0. -/
def RunningSum.init (length : Nat) : RunningSum :=
  { history := List.replicate length 0, pointer := 0 }

/-- RunningSum::push (lines 132-135). -/
def RunningSum.push (r : RunningSum) (number : Int) : RunningSum :=
  { history := r.history.set r.pointer number,
    pointer := (r.pointer + 1) % r.history.length }

/-- RunningSum::sum (lines 137-143). -/
def RunningSum.sum (r : RunningSum) : Int :=
  r.history.foldl (fun result number => result + number) 0

/-- RunningSum::clear (lines 145-148): zeroes every slot, keeps pointer. -/
def RunningSum.clear (r : RunningSum) : RunningSum :=
  { history := List.replicate r.history.length 0, pointer := r.pointer }

/-- Modelled from the spec: the external Group collaborator (its class is
declared outside src/). It accumulates up to 4 message words tagged by
block number, with Cprime as an alternate tag for position 3, and an error
flag per word; it exposes whether a PI code (the block-1 word) has been
decoded and what it is. -/
structure Group where
  block1 : Option (Nat × Bool) := none
  block2 : Option (Nat × Bool) := none
  block3 : Option (Nat × Bool) := none
  block4 : Option (Nat × Bool) := none
  block3_is_c_prime : Bool := false
deriving DecidableEq, Repr

/-- Modelled from the spec: Group::set stores a message word and its error
flag at the slot for the given block number (0-based eBlockNumber). -/
def Group.set (g : Group) (block_num : Nat) (word : Nat) (had_errors : Bool) : Group :=
  match block_num with
  | 0 => { g with block1 := some (word, had_errors) }
  | 1 => { g with block2 := some (word, had_errors) }
  | 2 => { g with block3 := some (word, had_errors), block3_is_c_prime := false }
  | _ => { g with block4 := some (word, had_errors) }

/-- Modelled from the spec: Group::set_c_prime stores a word at position 3
tagged as the Cprime variant. -/
def Group.set_c_prime (g : Group) (word : Nat) (had_errors : Bool) : Group :=
  { g with block3 := some (word, had_errors), block3_is_c_prime := true }

/-- Modelled from the spec: Group::has_pi is whether the block-1 word (the
Program Identification code) has been stored. -/
def Group.has_pi (g : Group) : Bool :=
  g.block1.isSome

/-- Modelled from the spec: Group::pi is the stored block-1 word. -/
def Group.pi (g : Group) : Nat :=
  ((g.block1).getD (0, false)).1

/-- State of the BlockStream decoder (block_sync.h members initialized in
the constructor, lines 150-157). C++ int members are Int, the unsigned
shift register is Nat: only its low 27 bits are ever read (through
shiftRight 1 and the 26-bit mask), so the fixed register width in C++ does
not affect any extracted block. The Options, input_type and is_eof members
are never read by the code under verification and are omitted. -/
structure BlockStream where
  bitcount : Int
  prevbitcount : Int
  left_to_read : Int
  input_register : Nat
  prevsync : Offset
  expected_offset : Offset
  received_offset : Offset
  pi : Nat
  is_in_sync : Bool
  block_error_sum : RunningSum
  current_group : Group
  groups : List Group
  bler_average : RunningSum
deriving DecidableEq, Repr

/-- BlockStream constructor (block_sync.cc lines 150-157). -/
def BlockStream.init : BlockStream :=
  { bitcount := 0, prevbitcount := 0, left_to_read := 1, input_register := 0,
    prevsync := .A, expected_offset := .A, received_offset := .invalid,
    pi := 0x0000, is_in_sync := false,
    block_error_sum := RunningSum.init 50,
    current_group := {}, groups := [],
    bler_average := RunningSum.init 12 }

/-- BlockStream::Uncorrectable (block_sync.cc lines 160-167). -/
def BlockStream.uncorrectable (s : BlockStream) : BlockStream :=
  if s.is_in_sync = true ∧ s.block_error_sum.sum > 45 then
    { s with is_in_sync := false,
             block_error_sum := s.block_error_sum.clear,
             pi := 0x0000 }
  else s

/-- BlockStream::AcquireSync (block_sync.cc lines 169-190); returns the
value of is_in_sync_ together with the updated state. Int division and
remainder are truncated (tdiv, tmod), matching C++ int arithmetic. -/
def BlockStream.acquireSync (s : BlockStream) : Bool × BlockStream :=
  if s.is_in_sync = true then (true, s)
  else if s.received_offset ≠ Offset.invalid then
    let dist : Int := s.bitcount - s.prevbitcount
    if Int.tmod dist 26 = 0 ∧ dist ≤ 156 ∧
        Int.tmod ((blockNumberForOffset s.prevsync : Int) + Int.tdiv dist 26) 4 =
          (blockNumberForOffset s.received_offset : Int) then
      let s := { s with is_in_sync := true,
                        expected_offset := s.received_offset,
                        current_group := {} }
      (s.is_in_sync, s)
    else
      let s := { s with prevbitcount := s.bitcount, prevsync := s.received_offset }
      (s.is_in_sync, s)
  else (s.is_in_sync, s)

/-- Store-and-advance step of PushBit (block_sync.cc lines 225-243): if the
received offset matches the expected one, store the message word in the
current group (and refresh the cached PI); then advance the expected
offset, enqueue the group when the cycle wraps to A, and request a full
26-bit block as the next unit. -/
def BlockStream.storeAndAdvance (s : BlockStream) (message : Nat)
    (block_had_errors : Bool) : BlockStream :=
  let s :=
    if s.received_offset = s.expected_offset then
      let g :=
        if s.expected_offset = Offset.Cprime then
          s.current_group.set_c_prime message block_had_errors
        else
          s.current_group.set (blockNumberForOffset s.expected_offset) message
            block_had_errors
      let s := { s with current_group := g }
      if s.current_group.has_pi = true then { s with pi := s.current_group.pi } else s
    else s
  let s := { s with expected_offset := nextOffsetFor s.expected_offset }
  let s :=
    if s.expected_offset = Offset.A then
      { s with groups := s.groups ++ [s.current_group], current_group := {} }
    else s
  { s with left_to_read := 26 }

/-- Error-correction step of PushBit (block_sync.cc lines 211-223): extract
the message, attempt burst correction when the block had errors, mark the
offset corrected on success, call Uncorrectable on failure, then store. -/
def BlockStream.correctAndStore (s : BlockStream) (block : Nat)
    (block_had_errors : Bool) : BlockStream :=
  let message := block >>> 10
  let corrected_block := correctBurstErrors block s.expected_offset
  let message :=
    if block_had_errors = true ∧ corrected_block ≠ block then corrected_block >>> 10
    else message
  let s :=
    if block_had_errors = true ∧ corrected_block ≠ block then
      { s with received_offset := s.expected_offset }
    else s
  let s :=
    if block_had_errors = true ∧ s.received_offset ≠ s.expected_offset then
      s.uncorrectable
    else s
  s.storeAndAdvance message block_had_errors

/-- Synced branch of PushBit (block_sync.cc lines 205-243): accept the
Cprime variant in place of C, record whether the block had errors in the
50-block window, then correct and store. -/
def BlockStream.syncedBlockPath (s : BlockStream) (block : Nat) : BlockStream :=
  let s :=
    if s.expected_offset = Offset.C ∧ s.received_offset = Offset.Cprime then
      { s with expected_offset := Offset.Cprime }
    else s
  let block_had_errors : Bool := decide (s.received_offset ≠ s.expected_offset)
  let s := { s with block_error_sum :=
               s.block_error_sum.push (if block_had_errors then 1 else 0) }
  s.correctAndStore block block_had_errors

/-- Shift phase of BlockStream::PushBit (block_sync.cc lines 193-195): the
bit enters the accumulator, the unit counter is decremented and the bit
counter incremented. -/
def BlockStream.shifted (s : BlockStream) (bit : Bool) : BlockStream :=
  { s with
      input_register := (s.input_register <<< 1) + (if bit then 1 else 0)
      left_to_read := s.left_to_read - 1
      bitcount := s.bitcount + 1 }

/-- Candidate block extraction of PushBit (block_sync.cc line 200): the
accumulator shifted right by one bit, masked to 26 bits. -/
def BlockStream.window (s : BlockStream) : Nat :=
  (s.input_register >>> 1) &&& kBitmask26

/-- Classification step of PushBit (block_sync.cc line 202): record the
offset whose zero-error syndrome matches the candidate block's syndrome. -/
def BlockStream.classified (s : BlockStream) : BlockStream :=
  { s with received_offset := offsetForSyndrome (calculateSyndrome s.window) }

/-- Body of BlockStream::PushBit after the left_to_read counter has run out
(block_sync.cc lines 200-246): extract the candidate block, classify it,
try to acquire sync, and either process the block (synced) or keep sliding
bit by bit (unsynced). -/
def BlockStream.handleBlock (s : BlockStream) : BlockStream :=
  let block := s.window
  let s := s.classified
  let sync := s.acquireSync
  if sync.1 = true then
    sync.2.syncedBlockPath block
  else
    { sync.2 with left_to_read := 1 }

/-- BlockStream::PushBit (block_sync.cc lines 192-247). -/
def BlockStream.pushBit (s : BlockStream) (bit : Bool) : BlockStream :=
  let s := s.shifted bit
  if s.left_to_read > 0 then s else s.handleBlock

/-- BlockStream::PopGroups (block_sync.cc lines 249-253): returns the queue
and the state with the queue cleared. -/
def BlockStream.popGroups (s : BlockStream) : List Group × BlockStream :=
  (s.groups, { s with groups := [] })

/-- Feeding a list of bits one by one. -/
def BlockStream.pushBits (s : BlockStream) (bits : List Bool) : BlockStream :=
  bits.foldl BlockStream.pushBit s

/-- The bits of a value, most significant first, width n. -/
def bitsMSB (n : Nat) (v : Nat) : List Bool :=
  (List.range n).map (fun i => (v >>> (n - 1 - i)) &&& 1 = 1)

/-- Recursive reformulation of MatrixMultiply used in proofs: it walks the
reversed row list while consuming the bit vector from the least significant
end. It is related to matrixMultiply by matrixMultiply_eq_mmRows. -/
def mmRows (vec : Nat) (rows : List Nat) : Nat :=
  match rows with
  | [] => 0
  | r :: rs => (if vec &&& 0x01 ≠ 0 then r else 0) ^^^ mmRows (vec >>> 1) rs

/-- The five zero-error syndrome constants of OffsetForSyndrome, as a map
from the offset. The value for Offset.invalid is arbitrary. -/
def offsetSyndrome : Offset → Nat
  | .A => 0x3D8
  | .B => 0x3D4
  | .C => 0x25C
  | .Cprime => 0x3CC
  | .D => 0x258
  | .invalid => 0

/-- The correctable error vectors: a single set bit, or two adjacent set
bits, within 26 bits. This is exactly the set of distinct vectors
enumerated by MakeErrorLookupTable (the class 0x3 at shift 25 duplicates
the single bit at position 25 after masking). -/
def errorVectors : List Nat :=
  (List.range 26).map (fun i => 1 <<< i) ++ (List.range 25).map (fun i => 3 <<< i)

/-- Predicate form of the correctable burst-error vectors. -/
def isBurstErrorVector (e : Nat) : Prop :=
  (∃ i, i < 26 ∧ e = 1 <<< i) ∨ (∃ i, i < 25 ∧ e = 3 <<< i)

/-- The sequence of key-value writes MakeErrorLookupTable attempts for one
offset, in enumeration order: error class 0x1 with shifts 0..25, then
error class 0x3 with shifts 0..25. -/
def tableWrites (off : Offset) (w : Nat) : List ((Nat × Offset) × Nat) :=
  ((List.range 26).map (fun shift =>
    (((calculateSyndrome (((0x1 <<< shift) &&& kBitmask26) ^^^ w)), off),
      (0x1 <<< shift) &&& kBitmask26))) ++
  ((List.range 26).map (fun shift =>
    (((calculateSyndrome (((0x3 <<< shift) &&& kBitmask26) ^^^ w)), off),
      (0x3 <<< shift) &&& kBitmask26)))

/-- Shifting a list of bits into an accumulator register, oldest first. -/
def shiftIn (r : Nat) (bits : List Bool) : Nat :=
  bits.foldl (fun r b => (r <<< 1) + (if b then 1 else 0)) r

/-- Literal form of the error lookup table, established by
kErrorLookup_eq below; it lets later proofs avoid re-evaluating the table
construction. -/
def kErrorLookupLit : ErrorTable :=
  [((0x0C3, Offset.A), 0x0000001),
   ((0x057, Offset.A), 0x0000002),
   ((0x17F, Offset.A), 0x0000004),
   ((0x32F, Offset.A), 0x0000008),
   ((0x236, Offset.A), 0x0000010),
   ((0x004, Offset.A), 0x0000020),
   ((0x1D9, Offset.A), 0x0000040),
   ((0x263, Offset.A), 0x0000080),
   ((0x0AE, Offset.A), 0x0000100),
   ((0x08D, Offset.A), 0x0000200),
   ((0x0CB, Offset.A), 0x0000400),
   ((0x047, Offset.A), 0x0000800),
   ((0x15F, Offset.A), 0x0001000),
   ((0x36F, Offset.A), 0x0002000),
   ((0x2B6, Offset.A), 0x0004000),
   ((0x104, Offset.A), 0x0008000),
   ((0x3D9, Offset.A), 0x0010000),
   ((0x3DA, Offset.A), 0x0020000),
   ((0x3DC, Offset.A), 0x0040000),
   ((0x3D0, Offset.A), 0x0080000),
   ((0x3C8, Offset.A), 0x0100000),
   ((0x3F8, Offset.A), 0x0200000),
   ((0x398, Offset.A), 0x0400000),
   ((0x358, Offset.A), 0x0800000),
   ((0x2D8, Offset.A), 0x1000000),
   ((0x1D8, Offset.A), 0x2000000),
   ((0x34C, Offset.A), 0x0000003),
   ((0x2F0, Offset.A), 0x0000006),
   ((0x188, Offset.A), 0x000000C),
   ((0x2C1, Offset.A), 0x0000018),
   ((0x1EA, Offset.A), 0x0000030),
   ((0x205, Offset.A), 0x0000060),
   ((0x062, Offset.A), 0x00000C0),
   ((0x115, Offset.A), 0x0000180),
   ((0x3FB, Offset.A), 0x0000300),
   ((0x39E, Offset.A), 0x0000600),
   ((0x354, Offset.A), 0x0000C00),
   ((0x2C0, Offset.A), 0x0001800),
   ((0x1E8, Offset.A), 0x0003000),
   ((0x201, Offset.A), 0x0006000),
   ((0x06A, Offset.A), 0x000C000),
   ((0x105, Offset.A), 0x0018000),
   ((0x3DB, Offset.A), 0x0030000),
   ((0x3DE, Offset.A), 0x0060000),
   ((0x3D4, Offset.A), 0x00C0000),
   ((0x3C0, Offset.A), 0x0180000),
   ((0x3E8, Offset.A), 0x0300000),
   ((0x3B8, Offset.A), 0x0600000),
   ((0x318, Offset.A), 0x0C00000),
   ((0x258, Offset.A), 0x1800000),
   ((0x0D8, Offset.A), 0x3000000),
   ((0x0CF, Offset.B), 0x0000001),
   ((0x05B, Offset.B), 0x0000002),
   ((0x173, Offset.B), 0x0000004),
   ((0x323, Offset.B), 0x0000008),
   ((0x23A, Offset.B), 0x0000010),
   ((0x008, Offset.B), 0x0000020),
   ((0x1D5, Offset.B), 0x0000040),
   ((0x26F, Offset.B), 0x0000080),
   ((0x0A2, Offset.B), 0x0000100),
   ((0x081, Offset.B), 0x0000200),
   ((0x0C7, Offset.B), 0x0000400),
   ((0x04B, Offset.B), 0x0000800),
   ((0x153, Offset.B), 0x0001000),
   ((0x363, Offset.B), 0x0002000),
   ((0x2BA, Offset.B), 0x0004000),
   ((0x108, Offset.B), 0x0008000),
   ((0x3D5, Offset.B), 0x0010000),
   ((0x3D6, Offset.B), 0x0020000),
   ((0x3D0, Offset.B), 0x0040000),
   ((0x3DC, Offset.B), 0x0080000),
   ((0x3C4, Offset.B), 0x0100000),
   ((0x3F4, Offset.B), 0x0200000),
   ((0x394, Offset.B), 0x0400000),
   ((0x354, Offset.B), 0x0800000),
   ((0x2D4, Offset.B), 0x1000000),
   ((0x1D4, Offset.B), 0x2000000),
   ((0x340, Offset.B), 0x0000003),
   ((0x2FC, Offset.B), 0x0000006),
   ((0x184, Offset.B), 0x000000C),
   ((0x2CD, Offset.B), 0x0000018),
   ((0x1E6, Offset.B), 0x0000030),
   ((0x209, Offset.B), 0x0000060),
   ((0x06E, Offset.B), 0x00000C0),
   ((0x119, Offset.B), 0x0000180),
   ((0x3F7, Offset.B), 0x0000300),
   ((0x392, Offset.B), 0x0000600),
   ((0x358, Offset.B), 0x0000C00),
   ((0x2CC, Offset.B), 0x0001800),
   ((0x1E4, Offset.B), 0x0003000),
   ((0x20D, Offset.B), 0x0006000),
   ((0x066, Offset.B), 0x000C000),
   ((0x109, Offset.B), 0x0018000),
   ((0x3D7, Offset.B), 0x0030000),
   ((0x3D2, Offset.B), 0x0060000),
   ((0x3D8, Offset.B), 0x00C0000),
   ((0x3CC, Offset.B), 0x0180000),
   ((0x3E4, Offset.B), 0x0300000),
   ((0x3B4, Offset.B), 0x0600000),
   ((0x314, Offset.B), 0x0C00000),
   ((0x254, Offset.B), 0x1800000),
   ((0x0D4, Offset.B), 0x3000000),
   ((0x147, Offset.C), 0x0000001),
   ((0x1D3, Offset.C), 0x0000002),
   ((0x0FB, Offset.C), 0x0000004),
   ((0x2AB, Offset.C), 0x0000008),
   ((0x3B2, Offset.C), 0x0000010),
   ((0x180, Offset.C), 0x0000020),
   ((0x05D, Offset.C), 0x0000040),
   ((0x3E7, Offset.C), 0x0000080),
   ((0x12A, Offset.C), 0x0000100),
   ((0x109, Offset.C), 0x0000200),
   ((0x14F, Offset.C), 0x0000400),
   ((0x1C3, Offset.C), 0x0000800),
   ((0x0DB, Offset.C), 0x0001000),
   ((0x2EB, Offset.C), 0x0002000),
   ((0x332, Offset.C), 0x0004000),
   ((0x080, Offset.C), 0x0008000),
   ((0x25D, Offset.C), 0x0010000),
   ((0x25E, Offset.C), 0x0020000),
   ((0x258, Offset.C), 0x0040000),
   ((0x254, Offset.C), 0x0080000),
   ((0x24C, Offset.C), 0x0100000),
   ((0x27C, Offset.C), 0x0200000),
   ((0x21C, Offset.C), 0x0400000),
   ((0x2DC, Offset.C), 0x0800000),
   ((0x35C, Offset.C), 0x1000000),
   ((0x05C, Offset.C), 0x2000000),
   ((0x2C8, Offset.C), 0x0000003),
   ((0x374, Offset.C), 0x0000006),
   ((0x00C, Offset.C), 0x000000C),
   ((0x345, Offset.C), 0x0000018),
   ((0x06E, Offset.C), 0x0000030),
   ((0x381, Offset.C), 0x0000060),
   ((0x1E6, Offset.C), 0x00000C0),
   ((0x091, Offset.C), 0x0000180),
   ((0x27F, Offset.C), 0x0000300),
   ((0x21A, Offset.C), 0x0000600),
   ((0x2D0, Offset.C), 0x0000C00),
   ((0x344, Offset.C), 0x0001800),
   ((0x06C, Offset.C), 0x0003000),
   ((0x385, Offset.C), 0x0006000),
   ((0x1EE, Offset.C), 0x000C000),
   ((0x081, Offset.C), 0x0018000),
   ((0x25F, Offset.C), 0x0030000),
   ((0x25A, Offset.C), 0x0060000),
   ((0x250, Offset.C), 0x00C0000),
   ((0x244, Offset.C), 0x0180000),
   ((0x26C, Offset.C), 0x0300000),
   ((0x23C, Offset.C), 0x0600000),
   ((0x29C, Offset.C), 0x0C00000),
   ((0x3DC, Offset.C), 0x1800000),
   ((0x15C, Offset.C), 0x3000000),
   ((0x0D7, Offset.Cprime), 0x0000001),
   ((0x043, Offset.Cprime), 0x0000002),
   ((0x16B, Offset.Cprime), 0x0000004),
   ((0x33B, Offset.Cprime), 0x0000008),
   ((0x222, Offset.Cprime), 0x0000010),
   ((0x010, Offset.Cprime), 0x0000020),
   ((0x1CD, Offset.Cprime), 0x0000040),
   ((0x277, Offset.Cprime), 0x0000080),
   ((0x0BA, Offset.Cprime), 0x0000100),
   ((0x099, Offset.Cprime), 0x0000200),
   ((0x0DF, Offset.Cprime), 0x0000400),
   ((0x053, Offset.Cprime), 0x0000800),
   ((0x14B, Offset.Cprime), 0x0001000),
   ((0x37B, Offset.Cprime), 0x0002000),
   ((0x2A2, Offset.Cprime), 0x0004000),
   ((0x110, Offset.Cprime), 0x0008000),
   ((0x3CD, Offset.Cprime), 0x0010000),
   ((0x3CE, Offset.Cprime), 0x0020000),
   ((0x3C8, Offset.Cprime), 0x0040000),
   ((0x3C4, Offset.Cprime), 0x0080000),
   ((0x3DC, Offset.Cprime), 0x0100000),
   ((0x3EC, Offset.Cprime), 0x0200000),
   ((0x38C, Offset.Cprime), 0x0400000),
   ((0x34C, Offset.Cprime), 0x0800000),
   ((0x2CC, Offset.Cprime), 0x1000000),
   ((0x1CC, Offset.Cprime), 0x2000000),
   ((0x358, Offset.Cprime), 0x0000003),
   ((0x2E4, Offset.Cprime), 0x0000006),
   ((0x19C, Offset.Cprime), 0x000000C),
   ((0x2D5, Offset.Cprime), 0x0000018),
   ((0x1FE, Offset.Cprime), 0x0000030),
   ((0x211, Offset.Cprime), 0x0000060),
   ((0x076, Offset.Cprime), 0x00000C0),
   ((0x101, Offset.Cprime), 0x0000180),
   ((0x3EF, Offset.Cprime), 0x0000300),
   ((0x38A, Offset.Cprime), 0x0000600),
   ((0x340, Offset.Cprime), 0x0000C00),
   ((0x2D4, Offset.Cprime), 0x0001800),
   ((0x1FC, Offset.Cprime), 0x0003000),
   ((0x215, Offset.Cprime), 0x0006000),
   ((0x07E, Offset.Cprime), 0x000C000),
   ((0x111, Offset.Cprime), 0x0018000),
   ((0x3CF, Offset.Cprime), 0x0030000),
   ((0x3CA, Offset.Cprime), 0x0060000),
   ((0x3C0, Offset.Cprime), 0x00C0000),
   ((0x3D4, Offset.Cprime), 0x0180000),
   ((0x3FC, Offset.Cprime), 0x0300000),
   ((0x3AC, Offset.Cprime), 0x0600000),
   ((0x30C, Offset.Cprime), 0x0C00000),
   ((0x24C, Offset.Cprime), 0x1800000),
   ((0x0CC, Offset.Cprime), 0x3000000),
   ((0x143, Offset.D), 0x0000001),
   ((0x1D7, Offset.D), 0x0000002),
   ((0x0FF, Offset.D), 0x0000004),
   ((0x2AF, Offset.D), 0x0000008),
   ((0x3B6, Offset.D), 0x0000010),
   ((0x184, Offset.D), 0x0000020),
   ((0x059, Offset.D), 0x0000040),
   ((0x3E3, Offset.D), 0x0000080),
   ((0x12E, Offset.D), 0x0000100),
   ((0x10D, Offset.D), 0x0000200),
   ((0x14B, Offset.D), 0x0000400),
   ((0x1C7, Offset.D), 0x0000800),
   ((0x0DF, Offset.D), 0x0001000),
   ((0x2EF, Offset.D), 0x0002000),
   ((0x336, Offset.D), 0x0004000),
   ((0x084, Offset.D), 0x0008000),
   ((0x259, Offset.D), 0x0010000),
   ((0x25A, Offset.D), 0x0020000),
   ((0x25C, Offset.D), 0x0040000),
   ((0x250, Offset.D), 0x0080000),
   ((0x248, Offset.D), 0x0100000),
   ((0x278, Offset.D), 0x0200000),
   ((0x218, Offset.D), 0x0400000),
   ((0x2D8, Offset.D), 0x0800000),
   ((0x358, Offset.D), 0x1000000),
   ((0x058, Offset.D), 0x2000000),
   ((0x2CC, Offset.D), 0x0000003),
   ((0x370, Offset.D), 0x0000006),
   ((0x008, Offset.D), 0x000000C),
   ((0x341, Offset.D), 0x0000018),
   ((0x06A, Offset.D), 0x0000030),
   ((0x385, Offset.D), 0x0000060),
   ((0x1E2, Offset.D), 0x00000C0),
   ((0x095, Offset.D), 0x0000180),
   ((0x27B, Offset.D), 0x0000300),
   ((0x21E, Offset.D), 0x0000600),
   ((0x2D4, Offset.D), 0x0000C00),
   ((0x340, Offset.D), 0x0001800),
   ((0x068, Offset.D), 0x0003000),
   ((0x381, Offset.D), 0x0006000),
   ((0x1EA, Offset.D), 0x000C000),
   ((0x085, Offset.D), 0x0018000),
   ((0x25B, Offset.D), 0x0030000),
   ((0x25E, Offset.D), 0x0060000),
   ((0x254, Offset.D), 0x00C0000),
   ((0x240, Offset.D), 0x0180000),
   ((0x268, Offset.D), 0x0300000),
   ((0x238, Offset.D), 0x0600000),
   ((0x298, Offset.D), 0x0C00000),
   ((0x3D8, Offset.D), 0x1800000),
   ((0x158, Offset.D), 0x3000000)]

/-! Concrete inputs used by the counterexamples. The preamble is a clean
group A,B,C,D with all-zero message words (for the zero message the block
is exactly the offset word, since the syndrome of the offset word equals
the zero-error syndrome constant); feeding it from the initial state
establishes synchronization. The states c1state1..c1state4 are the
intermediate decoder states along this run, verified by decide. -/

def preamble1Bits : List Bool := bitsMSB 26 0x0FC ++ bitsMSB 26 0x198

def preamble2Bits : List Bool := bitsMSB 26 0x168 ++ bitsMSB 26 0x1B4 ++ [false]

def c1group1Bits : List Bool := bitsMSB 26 0x0FC ++ bitsMSB 26 0x198

def c1group2Bits : List Bool := bitsMSB 26 0x168 ++ bitsMSB 26 0x1B4

def c1state1 : BlockStream :=
  ⟨52, 27, 1, 16911434136, Offset.A, Offset.A, Offset.invalid, 0, false,
   ⟨List.replicate 50 0, 0⟩, ⟨none, none, none, none, false⟩, [],
   ⟨List.replicate 12 0, 0⟩⟩

def c1state2 : BlockStream :=
  ⟨105, 27, 26, 152324656946380620265685864, Offset.A, Offset.A, Offset.D, 0, true,
   ⟨List.replicate 50 0, 3⟩, ⟨none, none, none, none, false⟩,
   [⟨none, some (0, false), some (0, false), some (0, false), false⟩],
   ⟨List.replicate 12 0, 0⟩⟩

def c1state3 : BlockStream :=
  ⟨157, 27, 26, 686009268263058396528577732295545189302680, Offset.A, Offset.C,
   Offset.invalid, 0, true,
   ⟨[0, 0, 0, 1, 1] ++ List.replicate 45 0, 5⟩, ⟨none, none, none, none, false⟩, [],
   ⟨List.replicate 12 0, 0⟩⟩

def c1state4 : BlockStream :=
  ⟨209, 27, 26, 3089511084922216422339710853686975103809764348580404920756,
   Offset.A, Offset.A, Offset.invalid, 0, true,
   ⟨[0, 0, 0, 1, 1, 1, 1] ++ List.replicate 43 0, 7⟩, ⟨none, none, none, none, false⟩,
   [⟨none, none, none, none, false⟩],
   ⟨List.replicate 12 0, 0⟩⟩

/-- A state reached from the initial state by pushing the seven bits
1111110: the accumulator holds 0x7E and the unit counter is 1, so the next
pushed bit completes a unit. -/
def c2state : BlockStream :=
  BlockStream.pushBits BlockStream.init [true, true, true, true, true, true, false]

/-- A synchronized decoder state at a block boundary expecting offset A
whose 50-block error window already records 45 erroneous blocks (45 ones
followed by 5 zeros, cursor at slot 45). -/
def c6state : BlockStream :=
  { BlockStream.init with
      is_in_sync := true
      left_to_read := 26
      block_error_sum := ⟨List.replicate 45 1 ++ List.replicate 5 0, 45⟩ }

/-- Twenty-six bits forming, in the decoder window lagging one bit behind
the stream, the block for offset A with a single bit error in its lowest
bit. -/
def c6feedBits : List Bool := bitsMSB 26 ((0x0FC ^^^ 1) <<< 1)

/-- Pushing a list of values into a RunningSum, oldest first. -/
def RunningSum.pushAll (r : RunningSum) (xs : List Int) : RunningSum :=
  xs.foldl RunningSum.push r

/-- The decoder states reachable through its public interface: the freshly
constructed state, and anything obtained by pushing a bit or draining the
group queue. -/
inductive Reachable : BlockStream → Prop
  | init : Reachable BlockStream.init
  | push (s : BlockStream) (bit : Bool) : Reachable s → Reachable (s.pushBit bit)
  | pop (s : BlockStream) : Reachable s → Reachable ((s.popGroups).2)

/-- An unsynchronized state whose anchor is 26 bits old and whose last
classified offset is B, one block after the anchor offset A: the sync
acquisition condition holds. -/
def c5state : BlockStream :=
  { BlockStream.init with
      bitcount := 52
      prevbitcount := 26
      prevsync := Offset.A
      received_offset := Offset.B }

/-- A synchronized state, one bit from completing a block, whose window
already holds 46 erroneous blocks and whose accumulator will yield the
uncorrectable all-zero block. -/
def c6wstate : BlockStream :=
  { BlockStream.init with
      is_in_sync := true
      left_to_read := 1
      block_error_sum := ⟨List.replicate 46 1 ++ List.replicate 4 0, 46⟩ }

/-! Theorems. First the GF(2) algebra of the syndrome computation. -/

theorem xor_left_comm (a b c : Nat) : a ^^^ (b ^^^ c) = b ^^^ (a ^^^ c) := by
  rw [← Nat.xor_assoc, Nat.xor_comm a b, Nat.xor_assoc]

theorem xor_cancel_left (a b : Nat) : a ^^^ (a ^^^ b) = b := by
  rw [← Nat.xor_assoc, Nat.xor_self, Nat.zero_xor]

theorem reverse_getD (m : List Nat) (k : Nat) (hk : k < m.length) :
    m.reverse.getD k 0 = m.getD (m.length - 1 - k) 0 := by
  rw [List.getD_eq_getElem?_getD, List.getD_eq_getElem?_getD,
    List.getElem?_reverse' k (m.length - 1 - k) (by omega)]

theorem mm_foldl_aux (rs : List Nat) (vec acc : Nat) :
    (List.range rs.length).foldl
      (fun result k =>
        if (vec >>> k) &&& 0x01 ≠ 0 then result ^^^ rs.getD k 0 else result) acc
      = acc ^^^ mmRows vec rs := by
  induction rs generalizing vec acc with
  | nil => simp [mmRows]
  | cons r rs ih =>
    simp only [List.length_cons, List.range_succ_eq_map, List.foldl_cons, List.foldl_map,
      Nat.shiftRight_zero, List.getD_cons_zero]
    have hbody : (fun (x k : Nat) =>
        if (vec >>> Nat.succ k) &&& 0x01 ≠ 0 then x ^^^ (r :: rs).getD (Nat.succ k) 0 else x)
        = (fun (x k : Nat) =>
        if ((vec >>> 1) >>> k) &&& 0x01 ≠ 0 then x ^^^ rs.getD k 0 else x) := by
      funext x k
      have hs : vec >>> Nat.succ k = (vec >>> 1) >>> k := by
        rw [← Nat.shiftRight_add, Nat.add_comm 1 k]
      have hg : (r :: rs).getD (Nat.succ k) 0 = rs.getD k 0 := rfl
      rw [hs, hg]
    rw [hbody, ih]
    show (if vec &&& 0x01 ≠ 0 then acc ^^^ r else acc) ^^^ mmRows (vec >>> 1) rs
      = acc ^^^ ((if vec &&& 0x01 ≠ 0 then r else 0) ^^^ mmRows (vec >>> 1) rs)
    by_cases h : vec &&& 0x01 ≠ 0
    · rw [if_pos h, if_pos h, Nat.xor_assoc]
    · rw [if_neg h, if_neg h, Nat.zero_xor]

theorem matrixMultiply_eq_mmRows (vec : Nat) (m : List Nat) :
    matrixMultiply vec m = mmRows vec m.reverse := by
  unfold matrixMultiply
  have hext : (List.range m.length).foldl
      (fun result k =>
        if (vec >>> k) &&& 0x01 ≠ 0 then result ^^^ m.getD (m.length - 1 - k) 0
        else result) 0 =
      (List.range m.length).foldl
      (fun result k =>
        if (vec >>> k) &&& 0x01 ≠ 0 then result ^^^ m.reverse.getD k 0 else result) 0 := by
    refine List.foldl_ext _ _ _ ?_
    intro acc k hk
    rw [List.mem_range] at hk
    rw [reverse_getD m k hk]
  rw [hext]
  have haux := mm_foldl_aux m.reverse vec 0
  rw [List.length_reverse] at haux
  rw [haux, Nat.zero_xor]

theorem mmRows_xor (rs : List Nat) (x y : Nat) :
    mmRows (x ^^^ y) rs = mmRows x rs ^^^ mmRows y rs := by
  induction rs generalizing x y with
  | nil => simp [mmRows]
  | cons r rs ih =>
    simp only [mmRows]
    have hsh : (x ^^^ y) >>> 1 = (x >>> 1) ^^^ (y >>> 1) := by
      apply Nat.eq_of_testBit_eq
      intro i
      simp [Nat.testBit_shiftRight, Nat.testBit_xor]
    rw [hsh, ih, Nat.and_xor_distrib_right]
    have hx : x &&& 0x01 = 0 ∨ x &&& 0x01 = 1 := by
      rw [Nat.and_one_is_mod]; exact Nat.mod_two_eq_zero_or_one x
    have hy : y &&& 0x01 = 0 ∨ y &&& 0x01 = 1 := by
      rw [Nat.and_one_is_mod]; exact Nat.mod_two_eq_zero_or_one y
    rcases hx with hx | hx <;> rcases hy with hy | hy <;>
      simp [hx, hy, Nat.xor_assoc, xor_left_comm, xor_cancel_left]

theorem calculateSyndrome_xor (x y : Nat) :
    calculateSyndrome (x ^^^ y) = calculateSyndrome x ^^^ calculateSyndrome y := by
  unfold calculateSyndrome
  rw [matrixMultiply_eq_mmRows, matrixMultiply_eq_mmRows, matrixMultiply_eq_mmRows,
    mmRows_xor]

theorem offsetForSyndrome_eq_syndrome (s : Nat) (off : Offset)
    (hoff : off ≠ Offset.invalid) (h : offsetForSyndrome s = off) :
    s = offsetSyndrome off := by
  unfold offsetForSyndrome at h
  split_ifs at h <;> subst h <;> simp_all [offsetSyndrome]

theorem syndrome_offset_words :
    ∀ ow ∈ offset_words, calculateSyndrome ow.2 = offsetSyndrome ow.1 := by decide

set_option maxRecDepth 20000 in
theorem kErrorLookup_eq : kErrorLookup = kErrorLookupLit := by decide

set_option maxRecDepth 20000 in
theorem tableLookup_pattern :
    ∀ ow ∈ offset_words, ∀ e ∈ errorVectors,
      tableLookup kErrorLookup (offsetSyndrome ow.1 ^^^ calculateSyndrome e, ow.1)
        = some e := by
  simp only [kErrorLookup_eq]
  decide

/-- C3: for each of the 5 valid offsets, for every known-good block b at
that offset (its uncorrupted syndrome classifies to that offset), and for
every error vector that is a single set bit or two adjacent set bits
within 26 bits, CorrectBurstErrors applied to the corrupted block at the
matching offset returns the original block. -/
theorem c3_burst_error_round_trip :
    ∀ off w, (off, w) ∈ offset_words →
    ∀ b, offsetForSyndrome (calculateSyndrome b) = off →
    ∀ e, isBurstErrorVector e →
    correctBurstErrors (b ^^^ e) off = b := by
  intro off w hw b hb e he
  have hne : off ≠ Offset.invalid := by
    have hmem : (off, w) ∈ offset_words := hw
    fin_cases hmem <;> decide
  have hsb : calculateSyndrome b = offsetSyndrome off :=
    offsetForSyndrome_eq_syndrome _ _ hne hb
  have hmeme : e ∈ errorVectors := by
    rcases he with ⟨i, hi, rfl⟩ | ⟨i, hi, rfl⟩
    · exact List.mem_append_left _ (List.mem_map.mpr ⟨i, List.mem_range.mpr hi, rfl⟩)
    · exact List.mem_append_right _ (List.mem_map.mpr ⟨i, List.mem_range.mpr hi, rfl⟩)
  have hlook : tableLookup kErrorLookup (offsetSyndrome off ^^^ calculateSyndrome e, off)
      = some e := tableLookup_pattern (off, w) hw e hmeme
  unfold correctBurstErrors
  simp only [calculateSyndrome_xor, hsb, hlook]
  rw [Nat.xor_assoc, Nat.xor_self, Nat.xor_zero]

/-- Witness for c3_burst_error_round_trip: the offset-A block with message
word zero, corrupted in its lowest bit, is corrected back. -/
theorem c3_burst_error_round_trip_witness :
    correctBurstErrors (0x0FC ^^^ 1) Offset.A = 0x0FC :=
  c3_burst_error_round_trip Offset.A 0x0FC (by decide) 0x0FC (by decide) 1
    (Or.inl ⟨0, by omega, rfl⟩)

/-- C4: in the table built by MakeErrorLookupTable, whenever two distinct
(error-class, shift) combinations for the same offset produce the same
(syndrome, offset) key, the stored error vector equals the one of the
later combination in enumeration order (class 0x1 then 0x3, shifts 0..25).
The only colliding pairs are class 0x1 shift 25 and class 0x3 shift 25,
whose error vectors coincide after masking, so the stored vector matches
the last-constructed one even though std::map::insert keeps the first
binding. -/
theorem c4_error_table_collision_policy :
    ∀ ow ∈ offset_words, ∀ (i j : Fin (tableWrites ow.1 ow.2).length),
      (i : Nat) < (j : Nat) →
      ((tableWrites ow.1 ow.2).get i).1 = ((tableWrites ow.1 ow.2).get j).1 →
      tableLookup kErrorLookup (((tableWrites ow.1 ow.2).get j).1)
        = some (((tableWrites ow.1 ow.2).get j).2) := by
  simp only [kErrorLookup_eq]
  decide

/-- Witness for c4_error_table_collision_policy: the colliding pair for
offset A (class 0x1 shift 25 at index 25, class 0x3 shift 25 at index 51). -/
theorem c4_error_table_collision_policy_witness :
    tableLookup kErrorLookup (((tableWrites Offset.A 0x0FC).get ⟨51, by decide⟩).1)
      = some (((tableWrites Offset.A 0x0FC).get ⟨51, by decide⟩).2) :=
  c4_error_table_collision_policy (Offset.A, 0x0FC) (by decide)
    ⟨25, by decide⟩ ⟨51, by decide⟩ (by decide) (by decide)

/-- C7: every block built from a zero-syndrome codeword by xoring one of
the five offset check words classifies, via OffsetForSyndrome of its
syndrome, to that offset; and OffsetForSyndrome returns invalid on any
syndrome other than the five constants. -/
theorem c7_zero_error_classification :
    (∀ off w, (off, w) ∈ offset_words → ∀ c, calculateSyndrome c = 0 →
      offsetForSyndrome (calculateSyndrome (c ^^^ w)) = off) ∧
    (∀ s, s ≠ 0x3D8 → s ≠ 0x3D4 → s ≠ 0x25C → s ≠ 0x3CC → s ≠ 0x258 →
      offsetForSyndrome s = Offset.invalid) := by
  constructor
  · intro off w hw c hc
    have hcase : (off = Offset.A ∧ w = 0x0FC) ∨ (off = Offset.B ∧ w = 0x198) ∨
        (off = Offset.C ∧ w = 0x168) ∨ (off = Offset.Cprime ∧ w = 0x350) ∨
        (off = Offset.D ∧ w = 0x1B4) := by
      simpa [offset_words] using hw
    rcases hcase with ⟨rfl, rfl⟩ | ⟨rfl, rfl⟩ | ⟨rfl, rfl⟩ | ⟨rfl, rfl⟩ | ⟨rfl, rfl⟩ <;>
      rw [calculateSyndrome_xor, hc, Nat.zero_xor] <;> decide
  · intro s h1 h2 h3 h4 h5
    unfold offsetForSyndrome
    split_ifs <;> simp_all

/-- Witness for c7_zero_error_classification: the zero codeword at offset A,
and a syndrome outside the five constants. -/
theorem c7_zero_error_classification_witness :
    offsetForSyndrome (calculateSyndrome (0 ^^^ 0x0FC)) = Offset.A ∧
    offsetForSyndrome 0x007 = Offset.invalid :=
  ⟨c7_zero_error_classification.1 Offset.A 0x0FC (by decide) 0 (by decide),
   c7_zero_error_classification.2 0x007 (by decide) (by decide) (by decide) (by decide)
     (by decide)⟩

set_option maxRecDepth 40000 in
/-- C1 counterexample: after establishing synchronization with a clean
preamble group (the decoder is synced with expectedOffset A), feeding
exactly the 104 bits of a further clean group whose blocks are the message
words 0 shifted left 10 bits xored with the four check words does NOT make
PopGroups return one group holding the four message words with clear error
flags: the block extraction lags the stream by one bit, so every window is
misaligned and the popped group is empty. This refutes the claim as
stated. -/
theorem c1_counterexample :
    (BlockStream.pushBits BlockStream.init (preamble1Bits ++ preamble2Bits)).is_in_sync
        = true ∧
    (BlockStream.pushBits BlockStream.init
        (preamble1Bits ++ preamble2Bits)).expected_offset = Offset.A ∧
    ((BlockStream.pushBits
        ((BlockStream.pushBits BlockStream.init
            (preamble1Bits ++ preamble2Bits)).popGroups).2
        (c1group1Bits ++ c1group2Bits)).popGroups).1 ≠
      [⟨some (0, false), some (0, false), some (0, false), some (0, false), false⟩] := by
  have hsplit : ∀ (s : BlockStream) (xs ys : List Bool),
      BlockStream.pushBits s (xs ++ ys)
        = BlockStream.pushBits (BlockStream.pushBits s xs) ys := by
    intro s xs ys
    exact List.foldl_append _ _ _ _
  have h1 : BlockStream.pushBits BlockStream.init preamble1Bits = c1state1 := by decide
  have h2 : BlockStream.pushBits c1state1 preamble2Bits = c1state2 := by decide
  have h3 : BlockStream.pushBits ((c1state2.popGroups).2) c1group1Bits = c1state3 := by
    decide
  have h4 : BlockStream.pushBits c1state3 c1group2Bits = c1state4 := by decide
  rw [hsplit, h1, h2, hsplit, h3, h4]
  exact ⟨by decide, by decide, by decide⟩

/-- C2 counterexample: at a state whose accumulator holds 0x7E with one bit
left to read, pushing a zero bit makes the accumulator 0xFC, whose low 26
bits are the valid offset-A block 0xFC; yet the decoder classifies the
block (accumulator shifted right once, masked) as invalid, showing the
candidate block is not the low 26 bits of the accumulator. -/
theorem c2_counterexample :
    ((c2state.pushBit false).received_offset = Offset.invalid) ∧
    (offsetForSyndrome
        (calculateSyndrome ((c2state.pushBit false).input_register &&& kBitmask26))
      = Offset.A) := by decide

/-! Structural lemmas about the decoder step functions. -/

theorem uncorrectable_spec (s : BlockStream) :
    s.uncorrectable =
      if s.is_in_sync = true ∧ s.block_error_sum.sum > 45 then
        { s with is_in_sync := false, block_error_sum := s.block_error_sum.clear,
                 pi := 0x0000 }
      else s := rfl

theorem uncorrectable_fields (s : BlockStream) :
    (s.uncorrectable.expected_offset = s.expected_offset) ∧
    (s.uncorrectable.received_offset = s.received_offset) ∧
    (s.uncorrectable.input_register = s.input_register) ∧
    (s.uncorrectable.bitcount = s.bitcount) ∧
    (s.uncorrectable.left_to_read = s.left_to_read) ∧
    (s.uncorrectable.groups = s.groups) := by
  rw [uncorrectable_spec]
  split_ifs <;> exact ⟨rfl, rfl, rfl, rfl, rfl, rfl⟩

theorem acquireSync_synced (s : BlockStream) (h : s.is_in_sync = true) :
    s.acquireSync = (true, s) := by
  unfold BlockStream.acquireSync
  rw [if_pos h]

theorem acquireSync_fields (s : BlockStream) :
    ((s.acquireSync).2.input_register = s.input_register) ∧
    ((s.acquireSync).2.bitcount = s.bitcount) ∧
    ((s.acquireSync).2.left_to_read = s.left_to_read) ∧
    ((s.acquireSync).2.groups = s.groups) ∧
    ((s.acquireSync).2.block_error_sum = s.block_error_sum) ∧
    ((s.acquireSync).2.pi = s.pi) ∧
    ((s.acquireSync).2.received_offset = s.received_offset) := by
  unfold BlockStream.acquireSync
  simp only []
  split_ifs <;> exact ⟨rfl, rfl, rfl, rfl, rfl, rfl, rfl⟩

theorem acquireSync_cases (s : BlockStream) (hns : s.is_in_sync = false) :
    (s.acquireSync = (true,
        { s with is_in_sync := true, expected_offset := s.received_offset,
                 current_group := {} }) ∧
      s.received_offset ≠ Offset.invalid) ∨
    (((s.acquireSync).1 = false) ∧
      ((s.acquireSync).2.expected_offset = s.expected_offset) ∧
      ((s.acquireSync).2.is_in_sync = false)) := by
  unfold BlockStream.acquireSync
  simp only []
  split_ifs with h1 h2 h3
  · rw [hns] at h1
    exact absurd h1 (by simp)
  · exact Or.inl ⟨rfl, h2⟩
  · exact Or.inr ⟨hns, rfl, hns⟩
  · exact Or.inr ⟨hns, rfl, hns⟩

theorem nextOffsetFor_ne_invalid (o : Offset) : nextOffsetFor o ≠ Offset.invalid := by
  cases o <;> decide

theorem storeAndAdvance_fields (s : BlockStream) (m : Nat) (e : Bool) :
    ((s.storeAndAdvance m e).expected_offset = nextOffsetFor s.expected_offset) ∧
    ((s.storeAndAdvance m e).is_in_sync = s.is_in_sync) ∧
    ((s.storeAndAdvance m e).input_register = s.input_register) ∧
    ((s.storeAndAdvance m e).bitcount = s.bitcount) ∧
    ((s.storeAndAdvance m e).left_to_read = 26) ∧
    (∃ t, (s.storeAndAdvance m e).groups = s.groups ++ t) := by
  unfold BlockStream.storeAndAdvance
  simp only []
  split_ifs <;> simp

theorem correctAndStore_eq (s : BlockStream) (b : Nat) (e : Bool) :
    ∃ (s2 : BlockStream) (m : Nat), s.correctAndStore b e = s2.storeAndAdvance m e ∧
      s2.expected_offset = s.expected_offset ∧
      s2.input_register = s.input_register ∧
      s2.bitcount = s.bitcount ∧
      s2.groups = s.groups := by
  unfold BlockStream.correctAndStore
  simp only []
  split_ifs
  all_goals refine ⟨_, _, rfl, ?_, ?_, ?_, ?_⟩
  all_goals first
    | rfl
    | apply (uncorrectable_fields _).1
    | apply (uncorrectable_fields _).2.2.1
    | apply (uncorrectable_fields _).2.2.2.1
    | apply (uncorrectable_fields _).2.2.2.2.2

theorem correctAndStore_fields (s : BlockStream) (b : Nat) (e : Bool) :
    ((s.correctAndStore b e).expected_offset = nextOffsetFor s.expected_offset) ∧
    ((s.correctAndStore b e).input_register = s.input_register) ∧
    ((s.correctAndStore b e).bitcount = s.bitcount) ∧
    ((s.correctAndStore b e).left_to_read = 26) ∧
    (∃ t, (s.correctAndStore b e).groups = s.groups ++ t) := by
  obtain ⟨s2, m, heq, hexp, hreg, hbc, hgr⟩ := correctAndStore_eq s b e
  obtain ⟨a1, a2, a3, a4, a5, a6⟩ := storeAndAdvance_fields s2 m e
  rw [heq]
  refine ⟨by rw [a1, hexp], by rw [a3, hreg], by rw [a4, hbc], a5, ?_⟩
  obtain ⟨t, ht⟩ := a6
  exact ⟨t, by rw [ht, hgr]⟩

theorem syncedBlockPath_fields (s : BlockStream) (b : Nat) :
    ((s.syncedBlockPath b).expected_offset ≠ Offset.invalid) ∧
    ((s.syncedBlockPath b).input_register = s.input_register) ∧
    ((s.syncedBlockPath b).bitcount = s.bitcount) ∧
    ((s.syncedBlockPath b).left_to_read = 26) ∧
    (∃ t, (s.syncedBlockPath b).groups = s.groups ++ t) := by
  unfold BlockStream.syncedBlockPath
  simp only []
  split_ifs <;> {
    obtain ⟨c1, c2, c3, c4, c5⟩ := correctAndStore_fields _ b _
    exact ⟨by rw [c1]; exact nextOffsetFor_ne_invalid _, c2, c3, c4, c5⟩
  }

theorem handleBlock_eq (s : BlockStream) :
    s.handleBlock =
      (if (s.classified.acquireSync).1 = true then
        (s.classified.acquireSync).2.syncedBlockPath s.window
      else { (s.classified.acquireSync).2 with left_to_read := 1 }) := rfl

theorem classified_fields (s : BlockStream) :
    (s.classified.input_register = s.input_register) ∧
    (s.classified.bitcount = s.bitcount) ∧
    (s.classified.is_in_sync = s.is_in_sync) ∧
    (s.classified.expected_offset = s.expected_offset) ∧
    (s.classified.groups = s.groups) :=
  ⟨rfl, rfl, rfl, rfl, rfl⟩

theorem pushBit_no_unit (s : BlockStream) (bit : Bool) (h : 1 < s.left_to_read) :
    s.pushBit bit = s.shifted bit := by
  have hc : (s.shifted bit).left_to_read > 0 := by
    simp only [BlockStream.shifted]
    omega
  unfold BlockStream.pushBit
  simp only []
  rw [if_pos hc]

theorem pushBit_unit (s : BlockStream) (bit : Bool) (h : s.left_to_read ≤ 1) :
    s.pushBit bit = (s.shifted bit).handleBlock := by
  have hc : ¬ (s.shifted bit).left_to_read > 0 := by
    simp only [BlockStream.shifted]
    omega
  unfold BlockStream.pushBit
  simp only []
  rw [if_neg hc]

theorem pushBits_nil (s : BlockStream) : s.pushBits [] = s := rfl

theorem pushBits_cons (s : BlockStream) (b : Bool) (bits : List Bool) :
    s.pushBits (b :: bits) = (s.pushBit b).pushBits bits := rfl

theorem pushBits_append (s : BlockStream) (xs ys : List Bool) :
    s.pushBits (xs ++ ys) = (s.pushBits xs).pushBits ys :=
  List.foldl_append _ _ _ _

theorem handleBlock_groups_mono (s : BlockStream) :
    ∃ t, (s.handleBlock).groups = s.groups ++ t := by
  rw [handleBlock_eq]
  by_cases hs : (s.classified.acquireSync).1 = true
  · rw [if_pos hs]
    obtain ⟨_, _, _, _, t, ht⟩ := syncedBlockPath_fields (s.classified.acquireSync).2 s.window
    refine ⟨t, ?_⟩
    rw [ht, (acquireSync_fields s.classified).2.2.2.1]; try rfl
  · rw [if_neg hs]
    refine ⟨[], ?_⟩
    rw [List.append_nil]
    show ((s.classified.acquireSync).2).groups = s.groups
    rw [(acquireSync_fields s.classified).2.2.2.1]; try rfl

theorem handleBlock_register_bitcount (s : BlockStream) :
    (s.handleBlock.input_register = s.input_register) ∧
    (s.handleBlock.bitcount = s.bitcount) := by
  rw [handleBlock_eq]
  by_cases hs : (s.classified.acquireSync).1 = true
  · rw [if_pos hs]
    obtain ⟨_, h2, h3, _, _⟩ := syncedBlockPath_fields (s.classified.acquireSync).2 s.window
    constructor
    · rw [h2, (acquireSync_fields s.classified).1]; try rfl
    · rw [h3, (acquireSync_fields s.classified).2.1]; try rfl
  · rw [if_neg hs]
    constructor
    · show ((s.classified.acquireSync).2).input_register = s.input_register
      rw [(acquireSync_fields s.classified).1]; try rfl
    · show ((s.classified.acquireSync).2).bitcount = s.bitcount
      rw [(acquireSync_fields s.classified).2.1]; try rfl

theorem handleBlock_left (s : BlockStream) :
    s.handleBlock.left_to_read =
      (if (s.classified.acquireSync).1 = true then (26 : Int) else 1) := by
  rw [handleBlock_eq]
  by_cases hs : (s.classified.acquireSync).1 = true
  · rw [if_pos hs, if_pos hs]
    exact (syncedBlockPath_fields _ _).2.2.2.1
  · rw [if_neg hs, if_neg hs]

theorem handleBlock_expected_valid (s : BlockStream)
    (h : s.expected_offset ≠ Offset.invalid) :
    s.handleBlock.expected_offset ≠ Offset.invalid := by
  rw [handleBlock_eq]
  by_cases hs : (s.classified.acquireSync).1 = true
  · rw [if_pos hs]
    exact (syncedBlockPath_fields _ _).1
  · rw [if_neg hs]
    show ((s.classified.acquireSync).2).expected_offset ≠ Offset.invalid
    by_cases hsync : s.classified.is_in_sync = true
    · rw [acquireSync_synced _ hsync] at hs
      simp at hs
    · have hfalse : s.classified.is_in_sync = false := by
        revert hsync
        cases s.classified.is_in_sync <;> simp
      rcases acquireSync_cases s.classified hfalse with ⟨hlock, _⟩ | ⟨_, hexp, _⟩
      · rw [hlock] at hs
        simp at hs
      · rw [hexp]
        exact h

theorem pushBit_groups_mono (s : BlockStream) (bit : Bool) :
    ∃ t, (s.pushBit bit).groups = s.groups ++ t := by
  by_cases h : 1 < s.left_to_read
  · rw [pushBit_no_unit s bit h]
    exact ⟨[], (List.append_nil _).symm⟩
  · rw [pushBit_unit s bit (by omega)]
    exact handleBlock_groups_mono _

theorem pushBit_expected_valid (s : BlockStream) (bit : Bool)
    (h : s.expected_offset ≠ Offset.invalid) :
    (s.pushBit bit).expected_offset ≠ Offset.invalid := by
  by_cases hl : 1 < s.left_to_read
  · rw [pushBit_no_unit s bit hl]
    exact h
  · rw [pushBit_unit s bit (by omega)]
    exact handleBlock_expected_valid _ h

theorem blockNumberForOffset_lt (o : Offset) : blockNumberForOffset o < 4 := by
  cases o <;> decide

set_option maxHeartbeats 1000000 in
/-- C9: PopGroups returns the accumulated groups (PushBit only ever appends
to the queue, so the order is arrival order), empties the queue, and leaves
every other component of the decoder state unchanged. -/
theorem c9_pop_groups (s : BlockStream) :
    ((s.popGroups).1 = s.groups) ∧
    ((s.popGroups).2.groups = []) ∧
    ((s.popGroups).2.bitcount = s.bitcount) ∧
    ((s.popGroups).2.prevbitcount = s.prevbitcount) ∧
    ((s.popGroups).2.left_to_read = s.left_to_read) ∧
    ((s.popGroups).2.input_register = s.input_register) ∧
    ((s.popGroups).2.prevsync = s.prevsync) ∧
    ((s.popGroups).2.expected_offset = s.expected_offset) ∧
    ((s.popGroups).2.received_offset = s.received_offset) ∧
    ((s.popGroups).2.pi = s.pi) ∧
    ((s.popGroups).2.is_in_sync = s.is_in_sync) ∧
    ((s.popGroups).2.block_error_sum = s.block_error_sum) ∧
    ((s.popGroups).2.current_group = s.current_group) ∧
    ((s.popGroups).2.bler_average = s.bler_average) ∧
    (∀ bit, ∃ t, (s.pushBit bit).groups = s.groups ++ t) :=
  ⟨rfl, rfl, rfl, rfl, rfl, rfl, rfl, rfl, rfl, rfl, rfl, rfl, rfl, rfl,
   fun bit => pushBit_groups_mono s bit⟩

/-- C10: on every reachable decoder state the expected offset is never
Offset.invalid (it starts at A, is only set from a receivedOffset already
checked valid, to Cprime, or through NextOffsetFor whose range excludes
invalid), so the invalid-to-A entry of the next-offset map is never taken
from PushBit and the group-slot write always receives a block number
below 4. -/
theorem c10_expected_offset_valid (s : BlockStream) (hr : Reachable s) :
    s.expected_offset ≠ Offset.invalid ∧
    blockNumberForOffset s.expected_offset < 4 := by
  induction hr with
  | init => exact ⟨by decide, by decide⟩
  | push s bit _ ih => exact ⟨pushBit_expected_valid s bit ih.1, blockNumberForOffset_lt _⟩
  | pop s _ ih => exact ih

/-- Witness for c10_expected_offset_valid at the initial state. -/
theorem c10_expected_offset_valid_witness :
    BlockStream.init.expected_offset ≠ Offset.invalid ∧
    blockNumberForOffset BlockStream.init.expected_offset < 4 :=
  c10_expected_offset_valid BlockStream.init Reachable.init

/-- C2 (amended): each PushBit call shifts the bit into the accumulator
register and decrements the counter; with more than one bit left the call
only shifts. When the counter reaches zero, the candidate block submitted
to syndrome classification is the accumulator shifted right by ONE bit and
masked to 26 bits - the 26 bits pushed before the most recent one, not the
low 26 bits - and the next unit is 26 bits exactly when sync is held after
classification, else 1 bit. -/
theorem c2_bit_ingestion (s : BlockStream) (bit : Bool) :
    ((s.pushBit bit).input_register
        = (s.input_register <<< 1) + (if bit then 1 else 0)) ∧
    ((s.pushBit bit).bitcount = s.bitcount + 1) ∧
    ((s.shifted bit).window
        = (((s.input_register <<< 1) + (if bit then 1 else 0)) >>> 1) &&& kBitmask26) ∧
    (1 < s.left_to_read → s.pushBit bit = s.shifted bit) ∧
    (s.left_to_read ≤ 1 →
      (s.pushBit bit =
        (if ((s.shifted bit).classified.acquireSync).1 = true then
          ((s.shifted bit).classified.acquireSync).2.syncedBlockPath (s.shifted bit).window
        else { ((s.shifted bit).classified.acquireSync).2 with left_to_read := 1 })) ∧
      ((s.pushBit bit).left_to_read =
        if ((s.shifted bit).classified.acquireSync).1 = true then (26 : Int) else 1)) := by
  refine ⟨?_, ?_, rfl, fun hl => pushBit_no_unit s bit hl, fun hl => ⟨?_, ?_⟩⟩
  · by_cases hl : 1 < s.left_to_read
    · rw [pushBit_no_unit s bit hl]
      rfl
    · rw [pushBit_unit s bit (by omega)]
      exact (handleBlock_register_bitcount _).1
  · by_cases hl : 1 < s.left_to_read
    · rw [pushBit_no_unit s bit hl]
      rfl
    · rw [pushBit_unit s bit (by omega)]
      exact (handleBlock_register_bitcount _).2
  · rw [pushBit_unit s bit hl, handleBlock_eq]
  · rw [pushBit_unit s bit hl, handleBlock_left]

/-- Witness for c2_bit_ingestion: a non-final bit only shifts the register,
at a state with 26 bits left to read. -/
theorem c2_bit_ingestion_witness :
    c6state.pushBit true = c6state.shifted true :=
  (c2_bit_ingestion c6state true).2.2.2.1 (by decide)

set_option maxHeartbeats 1000000 in
/-- C5: AcquireSync returns true at once when already synced; otherwise,
when the last classified receivedOffset is valid and the anchor is older
than the current bit position, it locks exactly when the bit distance is a
positive multiple of 26, at most 156, and the anchor block number advanced
by dist/26 steps matches the received block number modulo 4; on lock it
sets expectedOffset from receivedOffset and starts a fresh group, on
failure it moves the anchor to the current position and offset. -/
theorem c5_sync_acquisition (s : BlockStream) (h : s.prevbitcount < s.bitcount) :
    (s.is_in_sync = true → s.acquireSync = (true, s)) ∧
    (s.is_in_sync = false → s.received_offset ≠ Offset.invalid →
      (((s.acquireSync).1 = true ↔
        (0 < (s.bitcount - s.prevbitcount).toNat ∧
         26 ∣ (s.bitcount - s.prevbitcount).toNat ∧
         (s.bitcount - s.prevbitcount).toNat ≤ 156 ∧
         (blockNumberForOffset s.prevsync + (s.bitcount - s.prevbitcount).toNat / 26) % 4
           = blockNumberForOffset s.received_offset)) ∧
      ((s.acquireSync).1 = true →
        s.acquireSync = (true, { s with
          is_in_sync := true
          expected_offset := s.received_offset
          current_group := {} })) ∧
      ((s.acquireSync).1 = false →
        s.acquireSync = (false, { s with
          prevbitcount := s.bitcount
          prevsync := s.received_offset })))) := by
  refine ⟨acquireSync_synced s, fun hns hv => ?_⟩
  have hd0 : (0 : Int) ≤ s.bitcount - s.prevbitcount := by omega
  have hbridge : (Int.tmod (s.bitcount - s.prevbitcount) 26 = 0 ∧
      s.bitcount - s.prevbitcount ≤ 156 ∧
      Int.tmod ((blockNumberForOffset s.prevsync : Int)
        + Int.tdiv (s.bitcount - s.prevbitcount) 26) 4
        = (blockNumberForOffset s.received_offset : Int)) ↔
      (0 < (s.bitcount - s.prevbitcount).toNat ∧
       26 ∣ (s.bitcount - s.prevbitcount).toNat ∧
       (s.bitcount - s.prevbitcount).toNat ≤ 156 ∧
       (blockNumberForOffset s.prevsync + (s.bitcount - s.prevbitcount).toNat / 26) % 4
         = blockNumberForOffset s.received_offset) := by
    rw [Int.tmod_eq_emod hd0 (by omega),
      Int.tdiv_eq_ediv hd0 (by omega),
      Int.tmod_eq_emod (by omega) (by omega)]
    omega
  unfold BlockStream.acquireSync
  simp only []
  rw [if_neg (by simp [hns]), if_pos hv]
  by_cases hcond : (Int.tmod (s.bitcount - s.prevbitcount) 26 = 0 ∧
      s.bitcount - s.prevbitcount ≤ 156 ∧
      Int.tmod ((blockNumberForOffset s.prevsync : Int)
        + Int.tdiv (s.bitcount - s.prevbitcount) 26) 4
        = (blockNumberForOffset s.received_offset : Int))
  · rw [if_pos hcond]
    exact ⟨by simp [hbridge.mp hcond], fun _ => rfl, fun hfalse => by simp at hfalse⟩
  · rw [if_neg hcond]
    refine ⟨?_, fun htrue => ?_, fun _ => ?_⟩
    · rw [show ({ s with
          prevbitcount := s.bitcount
          prevsync := s.received_offset } : BlockStream).is_in_sync = s.is_in_sync from rfl,
        hns]
      exact ⟨fun hfalse => absurd hfalse (by simp),
        fun hR => absurd (hbridge.mpr hR) hcond⟩
    · rw [show ({ s with
          prevbitcount := s.bitcount
          prevsync := s.received_offset } : BlockStream).is_in_sync = s.is_in_sync from rfl,
        hns] at htrue
      exact absurd htrue (by simp)
    · rw [show ({ s with
          prevbitcount := s.bitcount
          prevsync := s.received_offset } : BlockStream).is_in_sync = s.is_in_sync from rfl,
        hns]

/-- Witness for c5_sync_acquisition: an unsynced state whose anchor is one
valid block behind locks sync. -/
theorem c5_sync_acquisition_witness :
    c5state.acquireSync = (true, { c5state with
      is_in_sync := true
      expected_offset := Offset.B
      current_group := {} }) :=
  ((c5_sync_acquisition c5state (by decide)).2 (by decide) (by decide)).2.1
    (by decide)

/-! Lemmas for the sync-loss analysis (C6). -/

theorem shifted_fields (s : BlockStream) (bit : Bool) :
    ((s.shifted bit).expected_offset = s.expected_offset) ∧
    ((s.shifted bit).block_error_sum = s.block_error_sum) ∧
    ((s.shifted bit).is_in_sync = s.is_in_sync) ∧
    ((s.shifted bit).pi = s.pi) :=
  ⟨rfl, rfl, rfl, rfl⟩

theorem classified_received (s : BlockStream) :
    s.classified.received_offset = offsetForSyndrome (calculateSyndrome s.window) := rfl

theorem storeAndAdvance_window (s : BlockStream) (m : Nat) (e : Bool) :
    (s.storeAndAdvance m e).block_error_sum = s.block_error_sum := by
  unfold BlockStream.storeAndAdvance
  simp only []
  split_ifs <;> rfl

theorem storeAndAdvance_no_store_pi (s : BlockStream) (m : Nat) (e : Bool)
    (h : ¬ s.received_offset = s.expected_offset) :
    (s.storeAndAdvance m e).pi = s.pi := by
  unfold BlockStream.storeAndAdvance
  simp only []
  rw [if_neg h]
  split_ifs <;> rfl

set_option maxHeartbeats 1000000 in
theorem syncedBlockPath_sync (s : BlockStream) (block : Nat) (hs : s.is_in_sync = true) :
    (((s.syncedBlockPath block).is_in_sync = false) ↔
      (s.received_offset ≠
          (if s.expected_offset = Offset.C ∧ s.received_offset = Offset.Cprime
           then Offset.Cprime else s.expected_offset) ∧
        correctBurstErrors block
          (if s.expected_offset = Offset.C ∧ s.received_offset = Offset.Cprime
           then Offset.Cprime else s.expected_offset) = block ∧
        (s.block_error_sum.push 1).sum > 45)) ∧
    (((s.syncedBlockPath block).is_in_sync = false) →
      ((s.syncedBlockPath block).block_error_sum = (s.block_error_sum.push 1).clear ∧
       (s.syncedBlockPath block).pi = 0x0000)) := by
  unfold BlockStream.syncedBlockPath
  simp only []
  have hA : (if s.expected_offset = Offset.C ∧ s.received_offset = Offset.Cprime then
      { s with expected_offset := Offset.Cprime } else s) =
      { s with expected_offset :=
        (if s.expected_offset = Offset.C ∧ s.received_offset = Offset.Cprime
         then Offset.Cprime else s.expected_offset) } := by
    split_ifs <;> rfl
  rw [hA]
  set e : Offset :=
    (if s.expected_offset = Offset.C ∧ s.received_offset = Offset.Cprime
     then Offset.Cprime else s.expected_offset) with he
  by_cases hne : s.received_offset = e
  · rw [show (decide (({ s with expected_offset := e } :
        BlockStream).received_offset ≠ ({ s with expected_offset := e } :
        BlockStream).expected_offset)) = false from by simp [hne]]
    unfold BlockStream.correctAndStore
    simp only []
    rw [if_neg (by simp), if_neg (by simp), if_neg (by simp)]
    constructor
    · rw [show (BlockStream.storeAndAdvance _ _ _).is_in_sync =
        ({ s with
            expected_offset := e
            block_error_sum := s.block_error_sum.push 0 } :
          BlockStream).is_in_sync from (storeAndAdvance_fields _ _ _).2.1]
      simp [hs, hne]
    · intro hdrop
      rw [show (BlockStream.storeAndAdvance _ _ _).is_in_sync =
        ({ s with
            expected_offset := e
            block_error_sum := s.block_error_sum.push 0 } :
          BlockStream).is_in_sync from (storeAndAdvance_fields _ _ _).2.1] at hdrop
      rw [show ({ s with
          expected_offset := e
          block_error_sum := s.block_error_sum.push 0 } :
          BlockStream).is_in_sync = s.is_in_sync from rfl, hs] at hdrop
      exact absurd hdrop (by simp)
  · rw [show (decide (({ s with expected_offset := e } :
        BlockStream).received_offset ≠ ({ s with expected_offset := e } :
        BlockStream).expected_offset)) = true from by simp [hne]]
    unfold BlockStream.correctAndStore
    simp only []
    rw [if_pos True.intro]
    by_cases hcor : correctBurstErrors block e = block
    · have hC1 : ¬(True ∧ correctBurstErrors block e ≠ block) := fun hx => hx.2 hcor
      rw [if_neg hC1, if_neg hC1]
      rw [if_pos (by exact ⟨trivial, hne⟩)]
      rw [uncorrectable_spec]
      by_cases hsum : (s.block_error_sum.push 1).sum > 45
      · rw [if_pos (by exact ⟨hs, hsum⟩)]
        constructor
        · rw [show (BlockStream.storeAndAdvance _ _ _).is_in_sync = false from
            (storeAndAdvance_fields _ _ _).2.1]
          simp [hne, hcor, hsum]
        · intro _
          constructor
          · rw [storeAndAdvance_window]
          · rw [storeAndAdvance_no_store_pi _ _ _ hne]
      · rw [if_neg (by simp [hsum])]
        constructor
        · rw [(storeAndAdvance_fields _ _ _).2.1]
          simp [hs, hsum]
        · intro hdrop
          rw [(storeAndAdvance_fields _ _ _).2.1] at hdrop
          simp [hs] at hdrop
    · have hC1 : True ∧ correctBurstErrors block e ≠ block := ⟨trivial, hcor⟩
      rw [if_pos hC1, if_pos hC1]
      rw [if_neg (by exact fun hx => hx.2 rfl)]
      constructor
      · rw [(storeAndAdvance_fields _ _ _).2.1]
        simp [hs, hcor]
      · intro hdrop
        rw [(storeAndAdvance_fields _ _ _).2.1] at hdrop
        simp [hs] at hdrop

set_option maxHeartbeats 1000000 in
/-- C6 (amended): while synced, the transition to Unsynced occurs exactly
when a unit completes whose block still fails to match the (Cprime
adjusted) expected offset after attempted correction AND the 50-block
error window, already holding the new erroneous block, sums above 45; the
transition clears the window and resets the cached PI to 0x0000, and no
other path relinquishes synchronization. Erroneous-but-correctable blocks
never trigger it (see c6_counterexample), so the claim's "erroneous
blocks" must be read as "uncorrectable blocks". -/
theorem c6_sync_loss (s : BlockStream) (bit : Bool) (hs : s.is_in_sync = true) :
    (((s.pushBit bit).is_in_sync = false) ↔
      (s.left_to_read ≤ 1 ∧
        (((s.shifted bit).classified.received_offset ≠
            (if s.expected_offset = Offset.C ∧
                (s.shifted bit).classified.received_offset = Offset.Cprime
             then Offset.Cprime else s.expected_offset)) ∧
          correctBurstErrors ((s.shifted bit).window)
            (if s.expected_offset = Offset.C ∧
                (s.shifted bit).classified.received_offset = Offset.Cprime
             then Offset.Cprime else s.expected_offset) = (s.shifted bit).window ∧
          (s.block_error_sum.push 1).sum > 45))) ∧
    (((s.pushBit bit).is_in_sync = false) →
      ((s.pushBit bit).block_error_sum = (s.block_error_sum.push 1).clear ∧
       (s.pushBit bit).pi = 0x0000)) := by
  by_cases hl : s.left_to_read ≤ 1
  · rw [pushBit_unit s bit hl, handleBlock_eq,
      acquireSync_synced ((s.shifted bit).classified) (show _ = true from hs),
      if_pos (rfl : ((true : Bool), (s.shifted bit).classified).1 = true)]
    obtain ⟨hiff, heff⟩ := syncedBlockPath_sync ((s.shifted bit).classified)
      ((s.shifted bit).window) (show _ = true from hs)
    constructor
    · rw [hiff]
      exact ⟨fun hx => ⟨hl, hx⟩, fun hx => hx.2⟩
    · exact heff
  · have hl1 : 1 < s.left_to_read := by omega
    rw [pushBit_no_unit s bit hl1]
    constructor
    · rw [show (s.shifted bit).is_in_sync = s.is_in_sync from rfl, hs]
      simp [hl]
    · intro hdrop
      rw [show (s.shifted bit).is_in_sync = s.is_in_sync from rfl, hs] at hdrop
      exact absurd hdrop (by simp)

set_option maxRecDepth 40000 in
/-- C6 counterexample: a synced decoder whose 50-block window already
records 45 erroneous blocks receives one more erroneous (single bit
flipped) block; the error is correctable, so the window reaches 46
erroneous blocks out of the last 50 while synchronization is retained,
refuting the claim that 46 erroneous blocks in the window force the
transition to Unsynced. -/
theorem c6_counterexample :
    ((c6state.pushBits c6feedBits).is_in_sync = true) ∧
    ((c6state.pushBits c6feedBits).block_error_sum.sum = 46) := by decide


set_option maxRecDepth 40000 in
/-- Witness for c6_sync_loss: at a synced state with 46 recorded erroneous
blocks, an uncorrectable block drops synchronization. -/
theorem c6_sync_loss_witness :
    (c6wstate.pushBit false).is_in_sync = false :=
  (c6_sync_loss c6wstate false (by decide)).1.mpr (by decide)

/-! Lemmas for the RunningSum analysis (C8). -/

theorem pushAll_cons (r : RunningSum) (x : Int) (xs : List Int) :
    r.pushAll (x :: xs) = (r.push x).pushAll xs := rfl

theorem pushAll_append (r : RunningSum) (xs ys : List Int) :
    r.pushAll (xs ++ ys) = (r.pushAll xs).pushAll ys :=
  List.foldl_append _ _ _ _

theorem push_history_length (r : RunningSum) (n : Int) :
    (r.push n).history.length = r.history.length := by
  simp [RunningSum.push]

theorem foldl_add_shift (l : List Int) (a : Int) :
    l.foldl (fun x y => x + y) a = a + l.foldl (fun x y => x + y) 0 := by
  induction l generalizing a with
  | nil => simp
  | cons x xs ih =>
    simp only [List.foldl_cons]
    rw [ih (a + x), ih (0 + x)]
    omega

theorem foldl_add_eq_sum (l : List Int) :
    l.foldl (fun x y => x + y) 0 = l.sum := by
  induction l with
  | nil => rfl
  | cons x xs ih =>
    simp only [List.foldl_cons]
    rw [foldl_add_shift, ih]
    simp [List.sum_cons]

theorem runningSum_sum_eq (r : RunningSum) : r.sum = r.history.sum :=
  foldl_add_eq_sum r.history

theorem clear_sum (r : RunningSum) : r.clear.sum = 0 := by
  rw [runningSum_sum_eq]
  show (List.replicate r.history.length (0 : Int)).sum = 0
  induction r.history.length with
  | zero => rfl
  | succ n ih =>
    rw [List.replicate_succ, List.sum_cons, ih]
    decide

set_option maxHeartbeats 1000000 in
theorem pushAll_partial (xs : List Int) (r : RunningSum)
    (hp : r.pointer < r.history.length)
    (hfit : r.pointer + xs.length ≤ r.history.length) :
    r.pushAll xs = ⟨r.history.take r.pointer ++ xs
        ++ r.history.drop (r.pointer + xs.length),
      (r.pointer + xs.length) % r.history.length⟩ := by
  induction xs generalizing r with
  | nil =>
    obtain ⟨hist, p⟩ := r
    simp only [List.length_nil] at hfit
    simp only [List.length_nil, Nat.add_zero] at hp ⊢
    show (⟨hist, p⟩ : RunningSum) = _
    simp [RunningSum.pushAll, List.take_append_drop, Nat.mod_eq_of_lt hp]
  | cons x xs ih =>
    rw [pushAll_cons]
    by_cases hend : r.pointer + 1 = r.history.length
    · have hxs : xs = [] := by
        simp only [List.length_cons] at hfit
        have hz : xs.length = 0 := by omega
        exact List.length_eq_zero.mp hz
      subst hxs
      show r.push x = _
      unfold RunningSum.push
      rw [List.set_eq_take_cons_drop x hp]
      congr 1
      all_goals simp
    · have hplt : r.pointer + 1 < r.history.length := by
        simp only [List.length_cons] at hfit
        omega
      have hpp : (r.push x).pointer = r.pointer + 1 := by
        simp [RunningSum.push, Nat.mod_eq_of_lt hplt]
      have hph : (r.push x).history = r.history.set r.pointer x := rfl
      have hpl : (r.push x).history.length = r.history.length := push_history_length r x
      rw [ih (r.push x)
        (by rw [hpp, hpl]; exact hplt)
        (by rw [hpp, hpl]; simp only [List.length_cons] at hfit; omega)]
      rw [hpp, hph]
      have htake : (r.history.set r.pointer x).take (r.pointer + 1)
          = r.history.take r.pointer ++ [x] := by
        rw [List.take_succ, List.set_take,
          List.set_eq_of_length_le (by simp [List.length_take]),
          List.getElem?_set_self hp]
        rfl
      have hdrop2 : (r.history.set r.pointer x).drop (r.pointer + 1 + xs.length)
          = r.history.drop (r.pointer + 1 + xs.length) := by
        rw [List.drop_set, if_pos (by omega)]
      congr 1
      · rw [htake, hdrop2,
          show r.pointer + 1 + xs.length = r.pointer + (xs.length + 1) by omega]
        simp [List.append_assoc]
      · rw [List.length_set]
        simp only [List.length_cons]
        congr 1
        omega

set_option maxHeartbeats 1000000 in
theorem pushAll_cycle (r : RunningSum) (xs : List Int)
    (h0 : 0 < r.history.length)
    (hp : r.pointer < r.history.length) (hlen : xs.length = r.history.length) :
    r.pushAll xs = ⟨xs.drop (r.history.length - r.pointer)
        ++ xs.take (r.history.length - r.pointer), r.pointer⟩ := by
  have hsplit : r.pushAll xs =
      (r.pushAll (xs.take (r.history.length - r.pointer))).pushAll
        (xs.drop (r.history.length - r.pointer)) := by
    conv_lhs => rw [← List.take_append_drop (r.history.length - r.pointer) xs]
    exact pushAll_append _ _ _
  have hlen1 : (xs.take (r.history.length - r.pointer)).length
      = r.history.length - r.pointer := by
    simp [List.length_take]
    omega
  have h1 := pushAll_partial (xs.take (r.history.length - r.pointer)) r hp
    (by rw [hlen1]; omega)
  have hmid : r.pushAll (xs.take (r.history.length - r.pointer)) =
      ⟨r.history.take r.pointer ++ xs.take (r.history.length - r.pointer), 0⟩ := by
    rw [h1, hlen1]
    congr 1
    · rw [show r.pointer + (r.history.length - r.pointer) = r.history.length by omega]
      rw [List.drop_length, List.append_nil]
    · rw [show r.pointer + (r.history.length - r.pointer) = r.history.length by omega]
      exact Nat.mod_self _
  have hmidlen : (r.history.take r.pointer
      ++ xs.take (r.history.length - r.pointer)).length = r.history.length := by
    simp [List.length_take, List.length_append]
    omega
  have hdlen : (xs.drop (r.history.length - r.pointer)).length = r.pointer := by
    simp [List.length_drop]
    omega
  have h2 := pushAll_partial (xs.drop (r.history.length - r.pointer))
    ⟨r.history.take r.pointer ++ xs.take (r.history.length - r.pointer), 0⟩
    (by simp only []; rw [show (⟨r.history.take r.pointer
        ++ xs.take (r.history.length - r.pointer), 0⟩ : RunningSum).history.length
        = r.history.length from hmidlen]; exact h0)
    (by simp only []; rw [show (⟨r.history.take r.pointer
        ++ xs.take (r.history.length - r.pointer), 0⟩ : RunningSum).history.length
        = r.history.length from hmidlen, hdlen]; omega)
  rw [hsplit, hmid, h2]
  congr 1
  · show List.take 0 (r.history.take r.pointer
        ++ xs.take (r.history.length - r.pointer))
      ++ xs.drop (r.history.length - r.pointer)
      ++ List.drop (0 + (xs.drop (r.history.length - r.pointer)).length)
        (r.history.take r.pointer ++ xs.take (r.history.length - r.pointer))
      = xs.drop (r.history.length - r.pointer)
        ++ xs.take (r.history.length - r.pointer)
    rw [List.take_zero, List.nil_append, hdlen, Nat.zero_add]
    rw [@List.drop_left' _ (r.history.take r.pointer)
      (xs.take (r.history.length - r.pointer)) r.pointer
      (by rw [List.length_take]; omega)]
  · show (0 + (xs.drop (r.history.length - r.pointer)).length) % _ = r.pointer
    rw [Nat.zero_add, hdlen, hmidlen]
    exact Nat.mod_eq_of_lt hp

theorem c8_aux (xs : List Int) : ∀ (r : RunningSum), 0 < r.history.length →
    r.pointer < r.history.length → r.history.length ≤ xs.length →
    (r.pushAll xs).sum = (xs.drop (xs.length - r.history.length)).sum := by
  induction xs with
  | nil =>
    intro r h0 hp hlen
    simp only [List.length_nil] at hlen
    omega
  | cons x xs ih =>
    intro r h0 hp hlen
    by_cases hexact : (x :: xs).length = r.history.length
    · rw [pushAll_cycle r (x :: xs) h0 hp hexact]
      rw [runningSum_sum_eq]
      rw [show (x :: xs).length - r.history.length = 0 by omega, List.drop_zero]
      show (List.drop _ (x :: xs) ++ List.take _ (x :: xs)).sum = _
      rw [List.sum_append]
      conv_rhs => rw [← List.take_append_drop (r.history.length - r.pointer) (x :: xs)]
      rw [List.sum_append]
      omega
    · have hle : r.history.length ≤ xs.length := by
        simp only [List.length_cons] at hlen hexact
        omega
      rw [pushAll_cons]
      rw [ih (r.push x)
        (by rw [push_history_length]; exact h0)
        (by rw [push_history_length]; exact Nat.mod_lt _ h0)
        (by rw [push_history_length]; exact hle)]
      rw [push_history_length]
      rw [show (x :: xs).length - r.history.length
        = (xs.length - r.history.length) + 1 by simp [List.length_cons]; omega]
      rw [List.drop_succ_cons]

/-- C8: a RunningSum of capacity N, after at least N values have been
pushed, sums exactly the N most recently pushed values (push overwrites the
oldest slot, the cursor advancing modulo N), and clear makes the sum zero
regardless of history. -/
theorem c8_running_sum (r : RunningSum) (xs : List Int)
    (h0 : 0 < r.history.length) (hp : r.pointer < r.history.length)
    (hlen : r.history.length ≤ xs.length) :
    ((r.pushAll xs).sum = (xs.drop (xs.length - r.history.length)).sum) ∧
    (∀ q : RunningSum, q.clear.sum = 0) :=
  ⟨c8_aux xs r h0 hp hlen, fun q => clear_sum q⟩

/-- Witness for c8_running_sum: capacity 2, three pushes, the sum is the
last two values. -/
theorem c8_running_sum_witness :
    (((RunningSum.init 2).pushAll [1, 2, 3]).sum
      = (([1, 2, 3] : List Int).drop 1).sum) ∧
    (∀ q : RunningSum, q.clear.sum = 0) :=
  c8_running_sum (RunningSum.init 2) [1, 2, 3] (by decide) (by decide) (by decide)


/-! Lemmas for the end-to-end analysis (C1): bit-register arithmetic of the
26-bit units and the clean (error-free) block-processing path. -/
theorem shiftIn_append (r : Nat) (xs ys : List Bool) :
    shiftIn r (xs ++ ys) = shiftIn (shiftIn r xs) ys :=
  List.foldl_append _ _ _ _

theorem bitsMSB_length (n v : Nat) : (bitsMSB n v).length = n := by
  simp [bitsMSB]

theorem bitsMSB_succ (n v : Nat) :
    bitsMSB (n + 1) v = (decide ((v >>> n) &&& 1 = 1)) :: bitsMSB n v := by
  unfold bitsMSB
  rw [List.range_succ_eq_map]
  simp only [List.map_cons, List.map_map]
  congr 1
  · refine List.map_congr_left (fun i hi => ?_)
    have h : n + 1 - 1 - (i + 1) = n - 1 - i := by omega
    simp only [Function.comp_apply, Nat.succ_eq_add_one, h]

theorem shiftIn_bitsMSB (n : Nat) : ∀ (r v : Nat),
    shiftIn r (bitsMSB n v) = r * 2 ^ n + v % 2 ^ n := by
  induction n with
  | zero =>
    intro r v
    simp [bitsMSB, shiftIn, Nat.mod_one]
  | succ n ih =>
    intro r v
    rw [bitsMSB_succ]
    rw [show shiftIn r ((decide ((v >>> n) &&& 1 = 1)) :: bitsMSB n v)
      = shiftIn ((r <<< 1) + (if (decide ((v >>> n) &&& 1 = 1)) = true then 1 else 0))
        (bitsMSB n v) from rfl]
    rw [ih]
    have h1 : (if (decide ((v >>> n) &&& 1 = 1)) = true then 1 else 0) = (v >>> n) % 2 := by
      have hand := Nat.and_one_is_mod (v >>> n)
      by_cases h : (v >>> n) % 2 = 1
      · rw [if_pos (by simp [hand, h]), h]
      · rw [if_neg (by simp [hand, h])]
        omega
    rw [h1, Nat.shiftLeft_eq, Nat.shiftRight_eq_div_pow]
    have h2 : v % 2 ^ (n + 1) = v % 2 ^ n + 2 ^ n * (v / 2 ^ n % 2) := by
      rw [Nat.pow_succ, Nat.mod_mul]
    rw [h2]
    ring

theorem pushBits_no_trigger : ∀ (xs : List Bool) (s : BlockStream),
    (xs.length : Int) < s.left_to_read →
    s.pushBits xs = { s with
      input_register := shiftIn s.input_register xs
      left_to_read := s.left_to_read - xs.length
      bitcount := s.bitcount + xs.length } := by
  intro xs
  induction xs with
  | nil =>
    intro s h
    show s = _
    simp [shiftIn]
  | cons b bs ih =>
    intro s h
    rw [pushBits_cons, pushBit_no_unit s b (by
      simp only [List.length_cons] at h
      push_cast at h
      omega)]
    rw [ih (s.shifted b) (by
      simp only [BlockStream.shifted, List.length_cons] at h ⊢
      push_cast at h ⊢
      omega)]
    simp only [BlockStream.shifted]
    congr 1
    · simp only [List.length_cons]
      push_cast
      ring
    · simp only [List.length_cons]
      push_cast
      ring

theorem pushBits_unitRun (s : BlockStream) (u : List Bool) (hu : u.length = 26)
    (hl : s.left_to_read = 26) :
    s.pushBits u = ({ s with
      input_register := shiftIn s.input_register u
      left_to_read := 0
      bitcount := s.bitcount + 26 } : BlockStream).handleBlock := by
  obtain ⟨b, hb⟩ : ∃ b, u.drop 25 = [b] := by
    have hlen : (u.drop 25).length = 1 := by rw [List.length_drop, hu]
    obtain ⟨b, hb⟩ := List.length_eq_one.mp hlen
    exact ⟨b, hb⟩
  have htk : (u.take 25).length = 25 := by
    rw [List.length_take, hu]
    omega
  have hsplit : u = u.take 25 ++ [b] := by
    conv_lhs => rw [← List.take_append_drop 25 u]
    rw [hb]
  rw [hsplit, pushBits_append,
    pushBits_no_trigger (u.take 25) s (by rw [htk, hl]; norm_num)]
  rw [show BlockStream.pushBits _ [b] = BlockStream.pushBit _ b from rfl]
  rw [pushBit_unit _ b (by
    simp only [htk, hl]
    norm_num)]
  congr 1
  simp only [BlockStream.shifted, htk, hl]
  congr 1
  · push_cast
    omega
  · rw [shiftIn_append]
    rfl

theorem window_clean (r b : Nat) (nb : Bool) (hb : b < 2 ^ 26)
    (hr : r % 2 = b >>> 25) :
    ((shiftIn r ((bitsMSB 26 b).drop 1 ++ [nb])) >>> 1) &&& kBitmask26 = b := by
  have hdrop : (bitsMSB 26 b).drop 1 = bitsMSB 25 b := by
    rw [show (26 : Nat) = 25 + 1 from rfl, bitsMSB_succ]
    rfl
  rw [hdrop, shiftIn_append, shiftIn_bitsMSB]
  rw [show shiftIn (r * 2 ^ 25 + b % 2 ^ 25) [nb]
    = ((r * 2 ^ 25 + b % 2 ^ 25) <<< 1) + (if nb = true then 1 else 0) from rfl]
  have hnb : (if nb = true then 1 else 0) ≤ 1 := by cases nb <;> simp
  rw [Nat.shiftLeft_eq, Nat.shiftRight_eq_div_pow,
    show kBitmask26 = 2 ^ 26 - 1 from rfl, Nat.and_pow_two_sub_one_eq_mod]
  rw [Nat.shiftRight_eq_div_pow] at hr
  rw [show (2:Nat) ^ 25 = 33554432 from by norm_num,
    show (2:Nat) ^ 26 = 67108864 from by norm_num,
    show (2:Nat) ^ 1 = 2 from by norm_num] at *
  omega

theorem shiftIn_snoc_mod_two (r : Nat) (xs : List Bool) (nb : Bool) :
    (shiftIn r (xs ++ [nb])) % 2 = (if nb = true then 1 else 0) := by
  rw [shiftIn_append,
    show shiftIn (shiftIn r xs) [nb]
      = ((shiftIn r xs) <<< 1) + (if nb = true then 1 else 0) from rfl,
    Nat.shiftLeft_eq]
  cases nb <;> simp <;> omega

theorem xor_high (m w : Nat) (hw : w < 2 ^ 10) : ((m <<< 10) ^^^ w) >>> 10 = m := by
  apply Nat.eq_of_testBit_eq
  intro i
  rw [Nat.testBit_shiftRight, Nat.testBit_xor, Nat.testBit_shiftLeft]
  have hwb : w.testBit (10 + i) = false :=
    Nat.testBit_lt_two_pow
      (lt_of_lt_of_le hw (Nat.pow_le_pow_right (by omega) (by omega)))
  rw [hwb]
  simp

theorem headbit_val (b : Nat) (hb : b < 2 ^ 26) :
    (if (decide ((b >>> 25) &&& 1 = 1)) = true then 1 else 0) = b >>> 25 := by
  have hdiv : b >>> 25 = b / 2 ^ 25 := Nat.shiftRight_eq_div_pow b 25
  have hand := Nat.and_one_is_mod (b >>> 25)
  rw [show (2:Nat) ^ 26 = 67108864 from by norm_num] at hb
  rw [show (2:Nat) ^ 25 = 33554432 from by norm_num] at hdiv
  rw [hand, hdiv] at *
  by_cases h : b / 33554432 % 2 = 1
  · rw [if_pos (by simp [h])]
    omega
  · rw [if_neg (by simp [h])]
    omega

theorem storeAndAdvance_clean (s : BlockStream) (m : Nat)
    (hr : s.received_offset = s.expected_offset)
    (hncp : s.expected_offset ≠ Offset.Cprime) :
    ((s.storeAndAdvance m false).is_in_sync = s.is_in_sync) ∧
    ((s.storeAndAdvance m false).left_to_read = 26) ∧
    ((s.storeAndAdvance m false).input_register = s.input_register) ∧
    ((s.storeAndAdvance m false).expected_offset = nextOffsetFor s.expected_offset) ∧
    ((s.storeAndAdvance m false).current_group =
      (if nextOffsetFor s.expected_offset = Offset.A then ({} : Group)
       else s.current_group.set (blockNumberForOffset s.expected_offset) m false)) ∧
    ((s.storeAndAdvance m false).groups = s.groups ++
      (if nextOffsetFor s.expected_offset = Offset.A
       then [s.current_group.set (blockNumberForOffset s.expected_offset) m false]
       else [])) := by
  unfold BlockStream.storeAndAdvance
  simp only []
  rw [if_pos hr, if_neg hncp]
  split_ifs <;> simp_all

theorem syncedBlockPath_clean (s : BlockStream) (block : Nat)
    (hr : s.received_offset = s.expected_offset)
    (hncp : s.expected_offset ≠ Offset.Cprime) :
    s.syncedBlockPath block =
      BlockStream.storeAndAdvance
        { s with block_error_sum := s.block_error_sum.push 0 }
        (block >>> 10) false := by
  unfold BlockStream.syncedBlockPath
  simp only []
  rw [show (if s.expected_offset = Offset.C ∧ s.received_offset = Offset.Cprime then
      { s with expected_offset := Offset.Cprime } else s) = s from
    if_neg (fun hx => hncp (hr.symm.trans hx.2))]
  rw [show (decide (s.received_offset ≠ s.expected_offset)) = false from by simp [hr]]
  unfold BlockStream.correctAndStore
  simp only []
  rw [if_neg (by simp), if_neg (by simp), if_neg (by simp)]
  rfl

set_option maxHeartbeats 1000000 in
theorem cleanUnit (s : BlockStream) (b : Nat) (nb : Bool) (u : List Bool)
    (hu : u = (bitsMSB 26 b).drop 1 ++ [nb])
    (hs : s.is_in_sync = true) (hl : s.left_to_read = 26)
    (hb : b < 2 ^ 26) (hr : s.input_register % 2 = b >>> 25)
    (hoff : offsetForSyndrome (calculateSyndrome b) = s.expected_offset)
    (hncp : s.expected_offset ≠ Offset.Cprime) :
    ((s.pushBits u).is_in_sync = true) ∧
    ((s.pushBits u).left_to_read = 26) ∧
    ((s.pushBits u).input_register % 2 = (if nb = true then 1 else 0)) ∧
    ((s.pushBits u).expected_offset = nextOffsetFor s.expected_offset) ∧
    ((s.pushBits u).current_group =
      (if nextOffsetFor s.expected_offset = Offset.A then ({} : Group)
       else s.current_group.set (blockNumberForOffset s.expected_offset) (b >>> 10) false)) ∧
    ((s.pushBits u).groups = s.groups ++
      (if nextOffsetFor s.expected_offset = Offset.A
       then [s.current_group.set (blockNumberForOffset s.expected_offset) (b >>> 10) false]
       else [])) := by
  have hlen : u.length = 26 := by
    rw [hu]
    simp [bitsMSB_length]
  rw [pushBits_unitRun s u hlen hl]
  set S : BlockStream := { s with
    input_register := shiftIn s.input_register u
    left_to_read := 0
    bitcount := s.bitcount + 26 } with hS
  rw [handleBlock_eq]
  have hwin : S.window = b := by
    rw [hS]
    show ((shiftIn s.input_register u) >>> 1) &&& kBitmask26 = b
    rw [hu]
    exact window_clean _ _ _ hb hr
  rw [acquireSync_synced S.classified (show S.classified.is_in_sync = true from hs),
    if_pos (rfl : ((true : Bool), S.classified).1 = true)]
  have hrc : S.classified.received_offset = S.classified.expected_offset := by
    rw [classified_received, hwin, hoff]
    rfl
  rw [hwin, syncedBlockPath_clean S.classified b hrc
    (show S.classified.expected_offset ≠ Offset.Cprime from hncp)]
  obtain ⟨f1, f2, f3, f4, f5, f6⟩ := storeAndAdvance_clean
    { S.classified with block_error_sum := S.classified.block_error_sum.push 0 }
    (b >>> 10) (by exact hrc) (by exact hncp)
  refine ⟨?_, ?_, ?_, ?_, ?_, ?_⟩
  · rw [f1]
    exact hs
  · exact f2
  · rw [f3]
    show (shiftIn s.input_register u) % 2 = _
    rw [hu]
    exact shiftIn_snoc_mod_two _ _ _
  · exact f4
  · exact f5
  · exact f6

theorem bitsMSB_drop_one (n v : Nat) : (bitsMSB (n + 1) v).drop 1 = bitsMSB n v := by
  rw [bitsMSB_succ]
  rfl

theorem popGroups_fst (s : BlockStream) : (s.popGroups).1 = s.groups := rfl

set_option maxHeartbeats 2000000 in
/-- C1 (amended): end-to-end decoding of one clean group. The claim's
blocks (message shifted left 10 bits XORed with the offset word) are only
classified as error-free when the shifted message has zero parity residue
(calculateSyndrome (m <<< 10) = 0), i.e. when the block is a true (26,16)
codeword XORed with the offset word - c1_counterexample shows the claim
fails without this hypothesis. Moreover the candidate block is read from
the accumulator shifted right once, so the stream must run one bit ahead:
the first block's leading bit is assumed preloaded (input_register parity)
and one extra trailing bit completes the fourth block. Under those
corrections, feeding the group bit-by-bit MSB-first from a synced state
expecting offset A makes PopGroups return exactly one group holding the
four original message words with no error flags. -/
theorem c1_end_to_end_amended (s : BlockStream) (m1 m2 m3 m4 : Nat) (x : Bool)
    (hm1 : m1 < 2 ^ 16) (hm2 : m2 < 2 ^ 16) (hm3 : m3 < 2 ^ 16) (hm4 : m4 < 2 ^ 16)
    (hc1 : calculateSyndrome (m1 <<< 10) = 0)
    (hc2 : calculateSyndrome (m2 <<< 10) = 0)
    (hc3 : calculateSyndrome (m3 <<< 10) = 0)
    (hc4 : calculateSyndrome (m4 <<< 10) = 0)
    (hsync : s.is_in_sync = true) (hleft : s.left_to_read = 26)
    (hexp : s.expected_offset = Offset.A) (hgrp : s.current_group = {})
    (hgs : s.groups = [])
    (hreg : s.input_register % 2 = ((m1 <<< 10) ^^^ 0x0FC) >>> 25) :
    ((s.pushBits
        ((bitsMSB 26 ((m1 <<< 10) ^^^ 0x0FC)).drop 1
          ++ (bitsMSB 26 ((m2 <<< 10) ^^^ 0x198)
          ++ (bitsMSB 26 ((m3 <<< 10) ^^^ 0x168)
          ++ (bitsMSB 26 ((m4 <<< 10) ^^^ 0x1B4)
          ++ [x]))))).popGroups).1 =
      [{ block1 := some (m1, false), block2 := some (m2, false),
         block3 := some (m3, false), block4 := some (m4, false),
         block3_is_c_prime := false }] := by
  set b1 := (m1 <<< 10) ^^^ 0x0FC with hb1def
  set b2 := (m2 <<< 10) ^^^ 0x198 with hb2def
  set b3 := (m3 <<< 10) ^^^ 0x168 with hb3def
  set b4 := (m4 <<< 10) ^^^ 0x1B4 with hb4def
  have hml : ∀ m : Nat, m < 2 ^ 16 → m <<< 10 < 2 ^ 26 := by
    intro m hm
    rw [Nat.shiftLeft_eq]
    calc m * 2 ^ 10 < 2 ^ 16 * 2 ^ 10 := (Nat.mul_lt_mul_right (by norm_num)).mpr hm
      _ = 2 ^ 26 := by norm_num
  have hB1 : b1 < 2 ^ 26 := by
    rw [hb1def]; exact Nat.xor_lt_two_pow (hml m1 hm1) (by norm_num)
  have hB2 : b2 < 2 ^ 26 := by
    rw [hb2def]; exact Nat.xor_lt_two_pow (hml m2 hm2) (by norm_num)
  have hB3 : b3 < 2 ^ 26 := by
    rw [hb3def]; exact Nat.xor_lt_two_pow (hml m3 hm3) (by norm_num)
  have hB4 : b4 < 2 ^ 26 := by
    rw [hb4def]; exact Nat.xor_lt_two_pow (hml m4 hm4) (by norm_num)
  have hM1 : b1 >>> 10 = m1 := by rw [hb1def]; exact xor_high m1 _ (by norm_num)
  have hM2 : b2 >>> 10 = m2 := by rw [hb2def]; exact xor_high m2 _ (by norm_num)
  have hM3 : b3 >>> 10 = m3 := by rw [hb3def]; exact xor_high m3 _ (by norm_num)
  have hM4 : b4 >>> 10 = m4 := by rw [hb4def]; exact xor_high m4 _ (by norm_num)
  have hoff1 : offsetForSyndrome (calculateSyndrome b1) = Offset.A := by
    rw [hb1def, calculateSyndrome_xor, hc1]
    decide
  have hoff2 : offsetForSyndrome (calculateSyndrome b2) = Offset.B := by
    rw [hb2def, calculateSyndrome_xor, hc2]
    decide
  have hoff3 : offsetForSyndrome (calculateSyndrome b3) = Offset.C := by
    rw [hb3def, calculateSyndrome_xor, hc3]
    decide
  have hoff4 : offsetForSyndrome (calculateSyndrome b4) = Offset.D := by
    rw [hb4def, calculateSyndrome_xor, hc4]
    decide
  have hsplit : (bitsMSB 26 b1).drop 1
      ++ (bitsMSB 26 b2 ++ (bitsMSB 26 b3 ++ (bitsMSB 26 b4 ++ [x])))
      = ((bitsMSB 26 b1).drop 1 ++ [decide ((b2 >>> 25) &&& 1 = 1)])
        ++ (((bitsMSB 26 b2).drop 1 ++ [decide ((b3 >>> 25) &&& 1 = 1)])
        ++ (((bitsMSB 26 b3).drop 1 ++ [decide ((b4 >>> 25) &&& 1 = 1)])
        ++ ((bitsMSB 26 b4).drop 1 ++ [x]))) := by
    rw [show (26 : Nat) = 25 + 1 from rfl, bitsMSB_drop_one, bitsMSB_drop_one,
      bitsMSB_drop_one, bitsMSB_drop_one, bitsMSB_succ 25 b2, bitsMSB_succ 25 b3,
      bitsMSB_succ 25 b4]
    simp [List.append_assoc]
  rw [hsplit, pushBits_append, pushBits_append, pushBits_append]
  obtain ⟨Hs1, Hl1, Hr1, He1, Hc1, Hg1⟩ := cleanUnit s b1
    (decide ((b2 >>> 25) &&& 1 = 1)) _ rfl hsync hleft hB1 hreg
    (by rw [hexp]; exact hoff1) (by rw [hexp]; decide)
  have hexp1 : (s.pushBits ((bitsMSB 26 b1).drop 1
      ++ [decide ((b2 >>> 25) &&& 1 = 1)])).expected_offset = Offset.B := by
    rw [He1, hexp]
    decide
  obtain ⟨Hs2, Hl2, Hr2, He2, Hc2, Hg2⟩ := cleanUnit _ b2
    (decide ((b3 >>> 25) &&& 1 = 1)) _ rfl Hs1 Hl1 hB2
    (Hr1.trans (headbit_val b2 hB2))
    (by rw [hexp1]; exact hoff2) (by rw [hexp1]; decide)
  have hexp2 : ((s.pushBits ((bitsMSB 26 b1).drop 1
      ++ [decide ((b2 >>> 25) &&& 1 = 1)])).pushBits ((bitsMSB 26 b2).drop 1
      ++ [decide ((b3 >>> 25) &&& 1 = 1)])).expected_offset = Offset.C := by
    rw [He2, hexp1]
    decide
  obtain ⟨Hs3, Hl3, Hr3, He3, Hc3, Hg3⟩ := cleanUnit _ b3
    (decide ((b4 >>> 25) &&& 1 = 1)) _ rfl Hs2 Hl2 hB3
    (Hr2.trans (headbit_val b3 hB3))
    (by rw [hexp2]; exact hoff3) (by rw [hexp2]; decide)
  have hexp3 : (((s.pushBits ((bitsMSB 26 b1).drop 1
      ++ [decide ((b2 >>> 25) &&& 1 = 1)])).pushBits ((bitsMSB 26 b2).drop 1
      ++ [decide ((b3 >>> 25) &&& 1 = 1)])).pushBits ((bitsMSB 26 b3).drop 1
      ++ [decide ((b4 >>> 25) &&& 1 = 1)])).expected_offset = Offset.D := by
    rw [He3, hexp2]
    decide
  obtain ⟨Hs4, Hl4, Hr4, He4, Hc4, Hg4⟩ := cleanUnit _ b4 x _ rfl Hs3 Hl3 hB4
    (Hr3.trans (headbit_val b4 hB4))
    (by rw [hexp3]; exact hoff4) (by rw [hexp3]; decide)
  have hcg1 : (s.pushBits ((bitsMSB 26 b1).drop 1
      ++ [decide ((b2 >>> 25) &&& 1 = 1)])).current_group
      = Group.set {} (blockNumberForOffset Offset.A) m1 false := by
    rw [Hc1, hexp, hgrp, hM1, if_neg (by decide)]
  have hgs1 : (s.pushBits ((bitsMSB 26 b1).drop 1
      ++ [decide ((b2 >>> 25) &&& 1 = 1)])).groups = [] := by
    rw [Hg1, hexp, hgs, if_neg (by decide)]
    rfl
  have hcg2 : ((s.pushBits ((bitsMSB 26 b1).drop 1
      ++ [decide ((b2 >>> 25) &&& 1 = 1)])).pushBits ((bitsMSB 26 b2).drop 1
      ++ [decide ((b3 >>> 25) &&& 1 = 1)])).current_group
      = Group.set (Group.set {} (blockNumberForOffset Offset.A) m1 false)
          (blockNumberForOffset Offset.B) m2 false := by
    rw [Hc2, hexp1, hcg1, hM2, if_neg (by decide)]
  have hgs2 : ((s.pushBits ((bitsMSB 26 b1).drop 1
      ++ [decide ((b2 >>> 25) &&& 1 = 1)])).pushBits ((bitsMSB 26 b2).drop 1
      ++ [decide ((b3 >>> 25) &&& 1 = 1)])).groups = [] := by
    rw [Hg2, hexp1, hgs1, if_neg (by decide)]
    rfl
  have hcg3 : (((s.pushBits ((bitsMSB 26 b1).drop 1
      ++ [decide ((b2 >>> 25) &&& 1 = 1)])).pushBits ((bitsMSB 26 b2).drop 1
      ++ [decide ((b3 >>> 25) &&& 1 = 1)])).pushBits ((bitsMSB 26 b3).drop 1
      ++ [decide ((b4 >>> 25) &&& 1 = 1)])).current_group
      = Group.set (Group.set (Group.set {} (blockNumberForOffset Offset.A) m1 false)
          (blockNumberForOffset Offset.B) m2 false)
          (blockNumberForOffset Offset.C) m3 false := by
    rw [Hc3, hexp2, hcg2, hM3, if_neg (by decide)]
  have hgs3 : (((s.pushBits ((bitsMSB 26 b1).drop 1
      ++ [decide ((b2 >>> 25) &&& 1 = 1)])).pushBits ((bitsMSB 26 b2).drop 1
      ++ [decide ((b3 >>> 25) &&& 1 = 1)])).pushBits ((bitsMSB 26 b3).drop 1
      ++ [decide ((b4 >>> 25) &&& 1 = 1)])).groups = [] := by
    rw [Hg3, hexp2, hgs2, if_neg (by decide)]
    rfl
  rw [popGroups_fst, Hg4, hexp3, hgs3, hcg3, hM4, if_pos (by decide)]
  rfl

/-- Witness for c1_end_to_end_amended: the all-zero codewords at a concrete
synced state; the decoder returns one group of four zero words. -/
theorem c1_end_to_end_amended_witness :
    ((c6state.pushBits
        ((bitsMSB 26 ((0 <<< 10) ^^^ 0x0FC)).drop 1
          ++ (bitsMSB 26 ((0 <<< 10) ^^^ 0x198)
          ++ (bitsMSB 26 ((0 <<< 10) ^^^ 0x168)
          ++ (bitsMSB 26 ((0 <<< 10) ^^^ 0x1B4)
          ++ [false]))))).popGroups).1 =
      [{ block1 := some (0, false), block2 := some (0, false),
         block3 := some (0, false), block4 := some (0, false),
         block3_is_c_prime := false }] :=
  c1_end_to_end_amended c6state 0 0 0 0 false (by decide) (by decide) (by decide)
    (by decide) (by decide) (by decide) (by decide) (by decide) (by decide)
    (by decide) (by decide) (by decide) (by decide) (by decide)

end Redsea
